import Mathlib

/-!
# Veltri purchase & points ledger — verification development

Shallow embedding of the transactional core of the Veltri note marketplace:
the `purchase_note` and `buy_points` stored procedures (supabase/schema.sql),
the `redeem_promo_code` stored procedure (supabase/migrations/promo_codes.sql),
and the purchase / donation / promo-redemption API handlers
(src/app/api/parse-file/route.ts purchase and donate handlers,
src/app/api/store/redeem-promo/route.ts).

Modelling conventions:
* UUID keys become `Nat` identifiers.
* SQL `NUMERIC` dollar amounts become `ℚ`; `INTEGER` point balances become `ℤ`.
* Tables keyed by id become functions `Nat → Option Row` (users, notes) or
  association lists (promo_codes, where lookup is by code string); append-only
  tables (transactions, purchases, redemptions, donations) become lists.
* A plpgsql `RAISE EXCEPTION` aborts the enclosing transaction; the procedure
  bodies are embedded in `Except`, and a `run…` wrapper restores the input
  state on error — the database's rollback semantics made explicit.
* `TIMESTAMPTZ` and `NOW()` become an `Int` time parameter.
-/

namespace Veltri

/-- A row of `public.users` (the marketplace columns): `points_balance INTEGER`,
`dollar_balance NUMERIC(10,2)`. -/
structure UserRow where
  points_balance : Int
  dollar_balance : ℚ
deriving Repr, DecidableEq

/-- A row of `public.notes` (the columns the ledger reads): owner, price,
publication flag, exclusivity flag, sold flag. -/
structure NoteRow where
  user_id : Nat
  price : ℚ
  is_published : Bool
  is_exclusive : Bool
  is_sold : Bool
deriving Repr, DecidableEq

/-- A row of `public.transactions`: the append-only ledger entry. -/
structure TransactionRow where
  user_id : Nat
  type : String
  amount : ℚ
  points_amount : Int
  note_id : Option Nat
deriving Repr, DecidableEq

/-- A row of `public.purchases`. -/
structure PurchaseRow where
  buyer_id : Nat
  note_id : Nat
  price_paid : ℚ
  payment_method : String
deriving Repr, DecidableEq

/-- A row of `public.promo_codes`. `expires_at = none` means the code never
expires; `max_uses = none` means unlimited uses. -/
structure PromoCodeRow where
  code : String
  points_amount : Int
  expires_at : Option Int
  is_active : Bool
  max_uses : Option Int
  current_uses : Int
deriving Repr, DecidableEq

/-- A row of `public.promo_code_redemptions`. -/
structure RedemptionRow where
  promo_code_id : Nat
  user_id : Nat
  points_received : Int
deriving Repr, DecidableEq

/-- A row of `public.donations`. -/
structure DonationRow where
  donor_id : Nat
  recipient_id : Nat
  note_id : Nat
  points_amount : Int
  points_received : Int
  message : Option String
deriving Repr, DecidableEq

/-- The database state the ledger operations read and write. -/
structure DBState where
  users : Nat → Option UserRow
  notes : Nat → Option NoteRow
  transactions : List TransactionRow
  purchases : List PurchaseRow
  promo_codes : List (Nat × PromoCodeRow)
  redemptions : List RedemptionRow
  donations : List DonationRow

/-- Point update of an id-keyed table (one `UPDATE … WHERE id = k` row write). -/
def updateFn (f : Nat → Option α) (k : Nat) (v : α) : Nat → Option α :=
  fun n => if n = k then some v else f n

@[simp] theorem updateFn_same (f : Nat → Option α) (k : Nat) (v : α) :
    updateFn f k v k = some v := by
  simp [updateFn]

@[simp] theorem updateFn_other (f : Nat → Option α) (k : Nat) (v : α)
    (n : Nat) (h : n ≠ k) : updateFn f k v n = f n := by
  simp [updateFn, h]

/-! ## purchase_note (supabase/schema.sql, §13) -/

/-- The distinct failure modes of `purchase_note` (its `RAISE EXCEPTION`
messages: `Note not found`, `Already purchased`, `Exclusive note already
sold`, `Insufficient points`). -/
inductive PurchaseError
  | NoteNotFound
  | AlreadyPurchased
  | ExclusiveAlreadySold
  | InsufficientPoints
deriving Repr, DecidableEq

/-- The JSON object `purchase_note` returns on success. -/
structure PurchaseResult where
  buyer_points_balance : Int
  payment_method : String
  amount_charged : ℚ
  points_deducted : Int
  is_exclusive : Bool
deriving Repr, DecidableEq

/-- The arguments of `purchase_note`. -/
structure PurchaseArgs where
  p_buyer_id : Nat
  p_note_id : Nat
  p_payment_method : String
  p_dollar_price : ℚ
  p_amount_charged : ℚ
  p_points_cost : Int
deriving Repr, DecidableEq

/-- `EXISTS (SELECT 1 FROM purchases WHERE buyer_id = … AND note_id = …)`. -/
def alreadyPurchased (st : DBState) (buyer note : Nat) : Bool :=
  st.purchases.any fun p => p.buyer_id == buyer && p.note_id == note

/-- The conditional points deduction of `purchase_note`:
`UPDATE users SET points_balance = points_balance - cost
 WHERE id = buyer AND points_balance >= cost RETURNING points_balance`.
`none` models `NOT FOUND` (no row matched: user absent or balance short). -/
def deductPoints (st : DBState) (buyer : Nat) (cost : Int) :
    Option (DBState × Int) :=
  match st.users buyer with
  | none => none
  | some u =>
    if cost ≤ u.points_balance then
      let u' := { u with points_balance := u.points_balance - cost }
      some ({ st with users := updateFn st.users buyer u' },
            u.points_balance - cost)
    else none

/-- `UPDATE users SET dollar_balance = dollar_balance + amount WHERE id = uid`
(no `FOUND` check in the source: a missing row updates nothing). -/
def creditDollars (st : DBState) (uid : Nat) (amount : ℚ) : DBState :=
  match st.users uid with
  | none => st
  | some u =>
    let u' := { u with dollar_balance := u.dollar_balance + amount }
    { st with users := updateFn st.users uid u' }

/-- `UPDATE notes SET is_sold = true WHERE id = nid`. -/
def markSold (st : DBState) (nid : Nat) : DBState :=
  match st.notes nid with
  | none => st
  | some n => { st with notes := updateFn st.notes nid ({ n with is_sold := true }) }

/-- The body of the `purchase_note` stored procedure, statement by statement.
An `Except.error` is a `RAISE EXCEPTION`; the transaction rollback it causes
is applied by `runPurchase`. -/
def purchase_note (st : DBState) (a : PurchaseArgs) :
    Except PurchaseError (DBState × PurchaseResult) :=
  match st.notes a.p_note_id with
  | none => .error .NoteNotFound
  | some note =>
    if alreadyPurchased st a.p_buyer_id a.p_note_id then .error .AlreadyPurchased
    else if note.is_exclusive && note.is_sold then .error .ExclusiveAlreadySold
    else
      let afterPay : Except PurchaseError (DBState × Int × String) :=
        if a.p_payment_method = "points" then
          match deductPoints st a.p_buyer_id a.p_points_cost with
          | none => .error .InsufficientPoints
          | some (st1, bal) => .ok (st1, bal, "note_bought_points")
        else .ok (st, 0, "note_bought_dollars")
      match afterPay with
      | .error e => .error e
      | .ok (st1, v_buyer_balance, v_tx_type) =>
        let st2 := creditDollars st1 note.user_id a.p_dollar_price
        let st3 := { st2 with transactions := st2.transactions ++
          ([ { user_id := a.p_buyer_id, type := v_tx_type,
               amount := a.p_amount_charged, points_amount := a.p_points_cost,
               note_id := some a.p_note_id },
             { user_id := note.user_id, type := "note_sale",
               amount := a.p_dollar_price, points_amount := 0,
               note_id := some a.p_note_id } ] : List TransactionRow) }
        let st4 := { st3 with purchases := st3.purchases ++
          ([ { buyer_id := a.p_buyer_id, note_id := a.p_note_id,
               price_paid := a.p_amount_charged,
               payment_method := a.p_payment_method } ] : List PurchaseRow) }
        let st5 := if note.is_exclusive then markSold st4 a.p_note_id else st4
        .ok (st5, { buyer_points_balance := v_buyer_balance,
                    payment_method := a.p_payment_method,
                    amount_charged := a.p_amount_charged,
                    points_deducted := a.p_points_cost,
                    is_exclusive := note.is_exclusive })

/-- `purchase_note` run as one database transaction: an exception rolls the
state back to the input state. -/
def runPurchase (st : DBState) (a : PurchaseArgs) :
    DBState × Except PurchaseError PurchaseResult :=
  match purchase_note st a with
  | .ok (st', r) => (st', .ok r)
  | .error e => (st, .error e)

/-! ## buy_points (supabase/schema.sql, §12) -/

/-- `buy_points`: unconditionally credit `p_points` to the user and append a
`points_purchase` transaction row; `User not found` if the row is missing.
Returns the new balance. -/
def buy_points (st : DBState) (p_user_id : Nat) (p_amount : ℚ) (p_points : Int) :
    Except Unit (DBState × Int) :=
  match st.users p_user_id with
  | none => .error ()
  | some u =>
    let u' := { u with points_balance := u.points_balance + p_points }
    let st1 := { st with users := updateFn st.users p_user_id u' }
    let st2 := { st1 with transactions := st1.transactions ++
      ([ { user_id := p_user_id, type := "points_purchase", amount := p_amount,
           points_amount := p_points, note_id := none } ] : List TransactionRow) }
    .ok (st2, u.points_balance + p_points)

/-- `buy_points` run as one transaction (exception rolls back). -/
def runBuyPoints (st : DBState) (uid : Nat) (amount : ℚ) (points : Int) : DBState :=
  match buy_points st uid amount points with
  | .ok (st', _) => st'
  | .error _ => st

/-! ## redeem_promo_code (supabase/migrations/promo_codes.sql) -/

/-- The row `redeem_promo_code` returns:
`TABLE(success BOOLEAN, message TEXT, points_received INTEGER)`. -/
structure RedeemResult where
  success : Bool
  message : String
  points_received : Int
deriving Repr, DecidableEq

/-- `SELECT id, … FROM promo_codes WHERE code = p_code` (the `code` column is
`UNIQUE`; `find?` returns the first — hence only — match). -/
def findPromoCode (st : DBState) (code : String) : Option (Nat × PromoCodeRow) :=
  st.promo_codes.find? fun e => e.2.code == code

/-- `UPDATE promo_codes SET current_uses = current_uses + 1 WHERE id = cid`. -/
def incrementUses (codes : List (Nat × PromoCodeRow)) (cid : Nat) :
    List (Nat × PromoCodeRow) :=
  codes.map fun e =>
    if e.1 = cid then (e.1, { e.2 with current_uses := e.2.current_uses + 1 }) else e

/-- `UPDATE users SET points_balance = points_balance + points WHERE id = uid`
(no `FOUND` check: a missing row updates nothing). -/
def creditPoints (st : DBState) (uid : Nat) (points : Int) : DBState :=
  match st.users uid with
  | none => st
  | some u =>
    let u' := { u with points_balance := u.points_balance + points }
    { st with users := updateFn st.users uid u' }

/-- `expires_at IS NOT NULL AND expires_at < NOW()`. -/
def promoExpired (c : PromoCodeRow) (now : Int) : Bool :=
  match c.expires_at with
  | some t => decide (t < now)
  | none => false

/-- `max_uses IS NOT NULL AND current_uses >= max_uses`. -/
def promoCapReached (c : PromoCodeRow) : Bool :=
  match c.max_uses with
  | some m => decide (m ≤ c.current_uses)
  | none => false

/-- `EXISTS (SELECT 1 FROM promo_code_redemptions WHERE promo_code_id = …
AND user_id = …)`. -/
def alreadyRedeemed (st : DBState) (cid uid : Nat) : Bool :=
  st.redemptions.any fun r => r.promo_code_id == cid && r.user_id == uid

/-- The `redeem_promo_code(p_code, p_user_id)` stored procedure: a sequential
validation chain returning a structured result (it never raises), then on
success the four effects — insert redemption record, credit the user's points,
increment `current_uses`, insert a `promo_code_redemption` transaction row.
`now` is the `NOW()` timestamp. -/
def redeem_promo_code (st : DBState) (now : Int) (p_code : String)
    (p_user_id : Nat) : DBState × RedeemResult :=
  match findPromoCode st p_code with
  | none => (st, ⟨false, "Invalid promo code", 0⟩)
  | some (cid, c) =>
    if c.is_active = false then
      (st, ⟨false, "This promo code is no longer active", 0⟩)
    else if promoExpired c now then
      (st, ⟨false, "This promo code has expired", 0⟩)
    else if promoCapReached c then
      (st, ⟨false, "This promo code has reached its maximum usage limit", 0⟩)
    else if alreadyRedeemed st cid p_user_id then
      (st, ⟨false, "You have already redeemed this promo code", 0⟩)
    else
      let st1 := { st with redemptions := st.redemptions ++
        ([ ⟨cid, p_user_id, c.points_amount⟩ ] : List RedemptionRow) }
      let st2 := creditPoints st1 p_user_id c.points_amount
      let st3 := { st2 with promo_codes := incrementUses st2.promo_codes cid }
      let st4 := { st3 with transactions := st3.transactions ++
        ([ { user_id := p_user_id, type := "promo_code_redemption", amount := 0,
             points_amount := c.points_amount, note_id := none } ] :
           List TransactionRow) }
      (st4, ⟨true, "Promo code redeemed successfully!", c.points_amount⟩)

/-! ## The promo-redemption endpoint (src/app/api/store/redeem-promo/route.ts)

The handler submits `code.trim().toUpperCase()` to `redeem_promo_code`.
The model covers the ASCII case mapping (`Char.toUpper` uppercases exactly
`'a'–'z'`, as JavaScript `toUpperCase` does on ASCII). -/

/-- JavaScript `String.prototype.trim` on the character sequence: drop leading
and trailing whitespace. -/
def jsTrim (l : List Char) : List Char :=
  ((l.dropWhile Char.isWhitespace).reverse.dropWhile Char.isWhitespace).reverse

/-- The endpoint's code normalization: `code.trim().toUpperCase()`. -/
def normalizeCode (s : String) : String :=
  String.mk ((jsTrim s.data).map Char.toUpper)

/-- The redeem-promo endpoint after auth and rate limiting: reject an empty
code, otherwise normalize and call `redeem_promo_code`. -/
def redeemEndpoint (st : DBState) (now : Int) (userId : Nat) (code : String) :
    DBState × RedeemResult :=
  if code = "" then (st, ⟨false, "Invalid promo code", 0⟩)
  else redeem_promo_code st now (normalizeCode code) userId

/-! ## The donate handler (src/app/api/parse-file/route.ts, donate section) -/

/-- The donate handler's failure responses (all roll back nothing: the handler
mutates only after every check passes). -/
inductive DonateError
  | InvalidAmount
  | NoteNotFound
  | NotFree
  | SelfDonation
  | BalanceFetchFailed
  | InsufficientPoints
deriving Repr, DecidableEq

/-- The donate handler's success JSON. -/
structure DonateResponse where
  points_donated : Int
  points_received : Int
  new_balance : Int
deriving Repr, DecidableEq

/-- `const ALLOWED_AMOUNTS = [25, 50, 100, 200]`. -/
def ALLOWED_AMOUNTS : List Int := [25, 50, 100, 200]

/-- `const PLATFORM_FEE = 0.30`. -/
def PLATFORM_FEE : ℚ := 30 / 100

/-- The donate POST handler after auth and rate limiting: validate the preset
amount, fetch the note (must be published and free), reject self-donation,
check the donor's balance, then deduct the gross amount from the donor, credit
`floor(points × (1 − 0.30))` to the recipient, and insert the donation row. -/
def donate (st : DBState) (donorId noteId : Nat) (points : Int)
    (message : Option String) : DBState × Except DonateError DonateResponse :=
  if (ALLOWED_AMOUNTS.contains points) = false then (st, .error .InvalidAmount)
  else
    match st.notes noteId with
    | none => (st, .error .NoteNotFound)
    | some note =>
      if note.is_published = false then (st, .error .NoteNotFound)
      else if 0 < note.price then (st, .error .NotFree)
      else if note.user_id = donorId then (st, .error .SelfDonation)
      else
        match st.users donorId with
        | none => (st, .error .BalanceFetchFailed)
        | some donor =>
          let currentBalance := donor.points_balance
          if currentBalance < points then (st, .error .InsufficientPoints)
          else
            let recipientPoints : Int := ⌊(points : ℚ) * (1 - PLATFORM_FEE)⌋
            let donor' := { donor with points_balance := currentBalance - points }
            let st1 := { st with users := updateFn st.users donorId donor' }
            let st2 := creditPoints st1 note.user_id recipientPoints
            let msg : Option String :=
              match message with
              | none => none
              | some m => if m.trim = "" then none else some m.trim
            let st3 := { st2 with donations := st2.donations ++
              ([ { donor_id := donorId, recipient_id := note.user_id,
                   note_id := noteId, points_amount := points,
                   points_received := recipientPoints, message := msg } ] :
                 List DonationRow) }
            (st3, .ok ⟨points, recipientPoints, currentBalance - points⟩)

/-! ## The purchase endpoint (src/app/api/parse-file/route.ts, purchase section)

`orgDiscountFactor` stands for the result of the organization-discount lookup
(lines 223–237 of the handler, a read-only query over users' email domains and
the organizations table); the handler multiplies the dollar price by it. With
no organization discount applying it is `1`. -/

/-- The purchase endpoint's failure responses. -/
inductive EndpointError
  | InvalidRequest
  | NoteNotFound
  | FreeNote
  | SelfPurchase
  | ExclusiveGone
  | InsufficientPoints
  | AlreadyOwned
  | ServerError
deriving Repr, DecidableEq

/-- The HTTP status the handler attaches to each failure response. -/
def statusOf : EndpointError → Nat
  | .InvalidRequest => 400
  | .NoteNotFound => 404
  | .FreeNote => 400
  | .SelfPurchase => 400
  | .ExclusiveGone => 410
  | .InsufficientPoints => 400
  | .AlreadyOwned => 400
  | .ServerError => 500

/-- The purchase endpoint's success JSON. -/
structure EndpointSuccess where
  payment_method : String
  amount_charged : ℚ
  points_deducted : Int
  new_points_balance : Int
deriving Repr, DecidableEq

/-- `const POINTS_PER_DOLLAR = 100`. -/
def POINTS_PER_DOLLAR : ℚ := 100

/-- `const POINTS_DISCOUNT = 0.05`. -/
def POINTS_DISCOUNT : ℚ := 5 / 100

/-- The purchase POST handler after auth and rate limiting: validate the
payment method, fetch the note (must be published), reject free notes,
self-purchase and sold exclusive notes, compute the charge for the chosen
payment method, call the `purchase_note` transaction, and map its errors to
response categories. -/
def purchaseEndpoint (st : DBState) (userId noteId : Nat)
    (paymentMethod : String) (orgDiscountFactor : ℚ) :
    DBState × Except EndpointError EndpointSuccess :=
  if ¬(paymentMethod = "points" ∨ paymentMethod = "dollars") then
    (st, .error .InvalidRequest)
  else
    match st.notes noteId with
    | none => (st, .error .NoteNotFound)
    | some note =>
      if note.is_published = false then (st, .error .NoteNotFound)
      else if note.price ≤ 0 then (st, .error .FreeNote)
      else if note.user_id = userId then (st, .error .SelfPurchase)
      else if note.is_exclusive && note.is_sold then (st, .error .ExclusiveGone)
      else
        let dollarPrice := note.price
        let effectiveDollarPrice := dollarPrice * orgDiscountFactor
        let costs : ℚ × Int :=
          if paymentMethod = "points" then
            let discountedDollar := effectiveDollarPrice * (1 - POINTS_DISCOUNT)
            (discountedDollar, ⌈discountedDollar * POINTS_PER_DOLLAR⌉)
          else (effectiveDollarPrice, 0)
        match runPurchase st ⟨userId, noteId, paymentMethod, dollarPrice,
            costs.1, costs.2⟩ with
        | (st', .ok r) =>
          (st', .ok ⟨r.payment_method, r.amount_charged, r.points_deducted,
                     r.buyer_points_balance⟩)
        | (st', .error e) =>
          (st', .error (match e with
            | .InsufficientPoints => .InsufficientPoints
            | .AlreadyPurchased => .AlreadyOwned
            | _ => .ServerError))

/-! ## Ledger operation sequences -/

/-- One ledger operation, for stating whole-system invariants. -/
inductive LedgerOp
  | purchase (a : PurchaseArgs)
  | buyPts (uid : Nat) (amount : ℚ) (points : Int)
  | redeem (now : Int) (code : String) (uid : Nat)
  | donation (donorId noteId : Nat) (points : Int) (message : Option String)

/-- Run one ledger operation (failures leave the state unchanged — the
transaction rollback, or for `donate` the handler's fail-before-mutate
structure). -/
def stepOp (st : DBState) : LedgerOp → DBState
  | .purchase a => (runPurchase st a).1
  | .buyPts uid amount points => runBuyPoints st uid amount points
  | .redeem now code uid => (redeem_promo_code st now code uid).1
  | .donation donorId noteId points message =>
      (donate st donorId noteId points message).1

/-- Run a sequence of ledger operations. -/
def execOps (st : DBState) (ops : List LedgerOp) : DBState :=
  ops.foldl stepOp st

/-- Run a sequence of `purchase_note` transactions. -/
def execPurchases (st : DBState) (ops : List PurchaseArgs) : DBState :=
  ops.foldl (fun s a => (runPurchase s a).1) st

/-- `true` iff the `purchase_note` transaction committed. -/
def purchaseOk : Except PurchaseError PurchaseResult → Bool
  | .ok _ => true
  | .error _ => false

/-- How many of the purchases in the list, run in order, commit against note
`n`. -/
def successesOn (n : Nat) : DBState → List PurchaseArgs → Nat
  | _, [] => 0
  | st, a :: rest =>
    let r := runPurchase st a
    (if a.p_note_id = n ∧ purchaseOk r.2 = true then 1 else 0) +
      successesOn n r.1 rest

/-- The `is_sold` flag of note `n` (false if the note does not exist). -/
def soldFlag (st : DBState) (n : Nat) : Bool :=
  match st.notes n with
  | some nt => nt.is_sold
  | none => false

/-! ## Concrete example state (for witnesses) -/

/-- Example users: 1 is a buyer with 500 points, 2 a seller with 100 points
and $5 earned, 3 a broke user. -/
def exUsers : Nat → Option UserRow := fun n =>
  if n = 1 then some ⟨500, 0⟩
  else if n = 2 then some ⟨100, 5⟩
  else if n = 3 then some ⟨0, 0⟩
  else if n = 4 then some ⟨10000, 0⟩
  else none

/-- Example notes, all owned by user 2: note 10 is an ordinary $10 note,
note 11 an exclusive unsold $3 note, note 12 a free note, note 13 an
exclusive note that is already sold. -/
def exNotes : Nat → Option NoteRow := fun n =>
  if n = 10 then some ⟨2, 10, true, false, false⟩
  else if n = 11 then some ⟨2, 3, true, true, false⟩
  else if n = 12 then some ⟨2, 0, true, false, false⟩
  else if n = 13 then some ⟨2, 2, true, true, true⟩
  else none

/-- Example promo codes: 100 is `WELCOME100` (unlimited), 101 is `BETA50`
capped at a single use, 102 is a code containing lowercase letters. -/
def exCodes : List (Nat × PromoCodeRow) :=
  [ (100, ⟨"WELCOME100", 100, none, true, none, 0⟩),
    (101, ⟨"BETA50", 50, some 1000, true, some 1, 0⟩),
    (102, ⟨"secret10", 10, none, true, none, 0⟩) ]

/-- The example database state. -/
def exSt : DBState :=
  { users := exUsers, notes := exNotes, transactions := [],
    purchases := [], promo_codes := exCodes, redemptions := [], donations := [] }

/-- The example state with note 10 already purchased by user 1. -/
def exStOwned : DBState :=
  { exSt with purchases := [⟨1, 10, 10, "dollars"⟩] }

/-! ## C1 -/

/-- C1: every precondition failure of `purchase_note` aborts the transaction
with its own distinct error and leaves the entire state unchanged — a missing
note gives `NoteNotFound`; an existing purchase record by this buyer gives
`AlreadyPurchased`; an exclusive, already-sold note gives
`ExclusiveAlreadySold`; on the points path a buyer balance below
`p_points_cost` gives `InsufficientPoints`; and the four errors are pairwise
distinct. -/
theorem purchase_note_failure_atomicity (st : DBState) (a : PurchaseArgs) :
    (st.notes a.p_note_id = none →
      runPurchase st a = (st, .error .NoteNotFound)) ∧
    (∀ note, st.notes a.p_note_id = some note →
      alreadyPurchased st a.p_buyer_id a.p_note_id = true →
      runPurchase st a = (st, .error .AlreadyPurchased)) ∧
    (∀ note, st.notes a.p_note_id = some note →
      alreadyPurchased st a.p_buyer_id a.p_note_id = false →
      note.is_exclusive = true → note.is_sold = true →
      runPurchase st a = (st, .error .ExclusiveAlreadySold)) ∧
    (∀ note bu, st.notes a.p_note_id = some note →
      alreadyPurchased st a.p_buyer_id a.p_note_id = false →
      (note.is_exclusive && note.is_sold) = false →
      a.p_payment_method = "points" →
      st.users a.p_buyer_id = some bu →
      bu.points_balance < a.p_points_cost →
      runPurchase st a = (st, .error .InsufficientPoints)) ∧
    (PurchaseError.NoteNotFound ≠ .AlreadyPurchased ∧
     PurchaseError.NoteNotFound ≠ .ExclusiveAlreadySold ∧
     PurchaseError.NoteNotFound ≠ .InsufficientPoints ∧
     PurchaseError.AlreadyPurchased ≠ .ExclusiveAlreadySold ∧
     PurchaseError.AlreadyPurchased ≠ .InsufficientPoints ∧
     PurchaseError.ExclusiveAlreadySold ≠ .InsufficientPoints) := by
  refine ⟨?_, ?_, ?_, ?_, by decide⟩
  · intro h
    simp [runPurchase, purchase_note, h]
  · intro note h hap
    simp [runPurchase, purchase_note, h, hap]
  · intro note h hap hexcl hsold
    simp [runPurchase, purchase_note, h, hap, hexcl, hsold]
  · intro note bu h hap hns hm hbu hlt
    simp [runPurchase, purchase_note, h, hap, hns, hm, deductPoints, hbu,
      not_le.mpr hlt]

/-- C1 witness: the four failure cases exercised on the concrete example
state — note 99 does not exist; user 1 already owns note 10 in `exStOwned`;
note 13 is exclusive and sold; user 3 has 0 points, short of a 100-point
cost. -/
theorem purchase_note_failure_atomicity_witness :
    runPurchase exSt ⟨1, 99, "points", 1, 1, 100⟩ =
      (exSt, .error .NoteNotFound) ∧
    runPurchase exStOwned ⟨1, 10, "dollars", 10, 10, 0⟩ =
      (exStOwned, .error .AlreadyPurchased) ∧
    runPurchase exSt ⟨1, 13, "dollars", 2, 2, 0⟩ =
      (exSt, .error .ExclusiveAlreadySold) ∧
    runPurchase exSt ⟨3, 10, "points", 10, 10, 100⟩ =
      (exSt, .error .InsufficientPoints) :=
  ⟨(purchase_note_failure_atomicity exSt _).1 (by decide),
   (purchase_note_failure_atomicity exStOwned _).2.1 ⟨2, 10, true, false, false⟩
     (by decide) (by decide),
   (purchase_note_failure_atomicity exSt _).2.2.1 ⟨2, 2, true, true, true⟩
     (by decide) (by decide) (by decide) (by decide),
   (purchase_note_failure_atomicity exSt _).2.2.2.1 ⟨2, 10, true, false, false⟩
     ⟨0, 0⟩ (by decide) (by decide) (by decide) (by decide) (by decide)
     (by decide)⟩

/-! ## Componentwise facts about the state writes -/

@[simp] theorem creditDollars_notes (st : DBState) (uid : Nat) (amt : ℚ) :
    (creditDollars st uid amt).notes = st.notes := by
  unfold creditDollars
  cases st.users uid <;> rfl

@[simp] theorem creditDollars_transactions (st : DBState) (uid : Nat) (amt : ℚ) :
    (creditDollars st uid amt).transactions = st.transactions := by
  unfold creditDollars
  cases st.users uid <;> rfl

@[simp] theorem creditDollars_purchases (st : DBState) (uid : Nat) (amt : ℚ) :
    (creditDollars st uid amt).purchases = st.purchases := by
  unfold creditDollars
  cases st.users uid <;> rfl

@[simp] theorem creditDollars_promo_codes (st : DBState) (uid : Nat) (amt : ℚ) :
    (creditDollars st uid amt).promo_codes = st.promo_codes := by
  unfold creditDollars
  cases st.users uid <;> rfl

@[simp] theorem creditDollars_redemptions (st : DBState) (uid : Nat) (amt : ℚ) :
    (creditDollars st uid amt).redemptions = st.redemptions := by
  unfold creditDollars
  cases st.users uid <;> rfl

@[simp] theorem creditDollars_donations (st : DBState) (uid : Nat) (amt : ℚ) :
    (creditDollars st uid amt).donations = st.donations := by
  unfold creditDollars
  cases st.users uid <;> rfl

theorem creditDollars_users_other (st : DBState) (uid : Nat) (amt : ℚ)
    (u : Nat) (h : u ≠ uid) :
    (creditDollars st uid amt).users u = st.users u := by
  unfold creditDollars
  cases st.users uid <;> simp [updateFn, h]

theorem creditDollars_users_same (st : DBState) (uid : Nat) (amt : ℚ)
    (r : UserRow) (h : st.users uid = some r) :
    (creditDollars st uid amt).users uid =
      some { r with dollar_balance := r.dollar_balance + amt } := by
  unfold creditDollars
  rw [h]
  simp

@[simp] theorem markSold_users (st : DBState) (n : Nat) :
    (markSold st n).users = st.users := by
  unfold markSold
  cases st.notes n <;> rfl

@[simp] theorem markSold_transactions (st : DBState) (n : Nat) :
    (markSold st n).transactions = st.transactions := by
  unfold markSold
  cases st.notes n <;> rfl

@[simp] theorem markSold_purchases (st : DBState) (n : Nat) :
    (markSold st n).purchases = st.purchases := by
  unfold markSold
  cases st.notes n <;> rfl

@[simp] theorem markSold_promo_codes (st : DBState) (n : Nat) :
    (markSold st n).promo_codes = st.promo_codes := by
  unfold markSold
  cases st.notes n <;> rfl

@[simp] theorem markSold_redemptions (st : DBState) (n : Nat) :
    (markSold st n).redemptions = st.redemptions := by
  unfold markSold
  cases st.notes n <;> rfl

@[simp] theorem markSold_donations (st : DBState) (n : Nat) :
    (markSold st n).donations = st.donations := by
  unfold markSold
  cases st.notes n <;> rfl

theorem markSold_notes_same (st : DBState) (n : Nat) (nt : NoteRow)
    (h : st.notes n = some nt) :
    (markSold st n).notes n = some { nt with is_sold := true } := by
  unfold markSold
  rw [h]
  simp

theorem markSold_notes_other (st : DBState) (n m : Nat) (h : m ≠ n) :
    (markSold st n).notes m = st.notes m := by
  unfold markSold
  cases st.notes n <;> simp [updateFn, h]

/-! ## C2 -/

/-- The success behaviour of `purchase_note`, as a reusable core lemma: all
six effects plus frame conditions. -/
theorem purchase_note_success_core (st : DBState) (a : PurchaseArgs)
    (note : NoteRow) (bu pu : UserRow)
    (hnote : st.notes a.p_note_id = some note)
    (hap : alreadyPurchased st a.p_buyer_id a.p_note_id = false)
    (hns : (note.is_exclusive && note.is_sold) = false)
    (hm : a.p_payment_method = "points" ∨ a.p_payment_method = "dollars")
    (hbu : st.users a.p_buyer_id = some bu)
    (hpu : st.users note.user_id = some pu)
    (hbal : a.p_payment_method = "points" →
      a.p_points_cost ≤ bu.points_balance) :
    purchaseOk (runPurchase st a).2 = true ∧
    (∃ bu', (runPurchase st a).1.users a.p_buyer_id = some bu' ∧
      bu'.points_balance = (if a.p_payment_method = "points"
        then bu.points_balance - a.p_points_cost else bu.points_balance)) ∧
    (∃ pu', (runPurchase st a).1.users note.user_id = some pu' ∧
      pu'.dollar_balance = pu.dollar_balance + a.p_dollar_price) ∧
    (runPurchase st a).1.transactions = st.transactions ++
      [⟨a.p_buyer_id,
        (if a.p_payment_method = "points" then "note_bought_points"
         else "note_bought_dollars"),
        a.p_amount_charged, a.p_points_cost, some a.p_note_id⟩,
       ⟨note.user_id, "note_sale", a.p_dollar_price, 0, some a.p_note_id⟩] ∧
    (runPurchase st a).1.purchases = st.purchases ++
      [⟨a.p_buyer_id, a.p_note_id, a.p_amount_charged,
        a.p_payment_method⟩] ∧
    (note.is_exclusive = true →
      (runPurchase st a).1.notes a.p_note_id =
        some { note with is_sold := true }) ∧
    (note.is_exclusive = false →
      (runPurchase st a).1.notes a.p_note_id = st.notes a.p_note_id) ∧
    (∀ u, u ≠ a.p_buyer_id → u ≠ note.user_id →
      (runPurchase st a).1.users u = st.users u) ∧
    (∀ m, m ≠ a.p_note_id → (runPurchase st a).1.notes m = st.notes m) ∧
    (runPurchase st a).1.promo_codes = st.promo_codes ∧
    (runPurchase st a).1.redemptions = st.redemptions ∧
    (runPurchase st a).1.donations = st.donations := by
  rcases hm with hm | hm
  · have hd : deductPoints st a.p_buyer_id a.p_points_cost =
        some (⟨updateFn st.users a.p_buyer_id
            ⟨bu.points_balance - a.p_points_cost, bu.dollar_balance⟩,
          st.notes, st.transactions, st.purchases, st.promo_codes,
          st.redemptions, st.donations⟩,
          bu.points_balance - a.p_points_cost) := by
      simp [deductPoints, hbu, hbal hm]
    simp only [runPurchase, purchase_note, hnote, hap, hns, hm, hd,
      Bool.false_eq_true, if_false, if_true, ite_true, ite_false,
      eq_self_iff_true, purchaseOk]
    refine ⟨trivial, ?_, ?_, ?_, ?_, ?_, ?_, ?_, ?_, ?_, ?_, ?_⟩
    · by_cases halias : note.user_id = a.p_buyer_id
      · simp only [apply_ite DBState.users, markSold_users, ite_self]
        rw [← halias, creditDollars_users_same _ _ _
          ⟨bu.points_balance - a.p_points_cost, bu.dollar_balance⟩
          (by rw [halias]; simp)]
        exact ⟨_, rfl, rfl⟩
      · simp only [apply_ite DBState.users, markSold_users, ite_self]
        rw [creditDollars_users_other _ _ _ _ (fun h => halias h.symm)]
        simp only [updateFn_same]
        exact ⟨_, rfl, rfl⟩
    · by_cases halias : note.user_id = a.p_buyer_id
      · rw [halias] at hpu
        rw [hbu] at hpu
        injection hpu with hpu
        subst hpu
        simp only [apply_ite DBState.users, markSold_users, ite_self]
        rw [creditDollars_users_same _ _ _
          ⟨bu.points_balance - a.p_points_cost, bu.dollar_balance⟩
          (by rw [halias]; simp)]
        exact ⟨_, rfl, rfl⟩
      · simp only [apply_ite DBState.users, markSold_users, ite_self]
        rw [creditDollars_users_same _ _ _ pu
          (by simp [updateFn, halias, hpu])]
        exact ⟨_, rfl, rfl⟩
    · simp only [apply_ite DBState.transactions, markSold_transactions,
        ite_self, creditDollars_transactions]
    · simp only [apply_ite DBState.purchases, markSold_purchases, ite_self,
        creditDollars_purchases]
    · intro hexcl
      rw [if_pos hexcl]
      exact markSold_notes_same _ _ note (by simp [hnote])
    · intro hexcl
      rw [if_neg (by simp [hexcl])]
      simp [hnote]
    · intro u hu1 hu2
      simp only [apply_ite DBState.users, markSold_users, ite_self]
      rw [creditDollars_users_other _ _ _ _ hu2]
      simp [updateFn, hu1]
    · intro m hm1
      by_cases hexcl : note.is_exclusive = true
      · rw [if_pos hexcl]
        rw [markSold_notes_other _ _ _ hm1]
        simp
      · rw [if_neg hexcl]
        simp
    · simp only [apply_ite DBState.promo_codes, markSold_promo_codes,
        ite_self, creditDollars_promo_codes]
    · simp only [apply_ite DBState.redemptions, markSold_redemptions,
        ite_self, creditDollars_redemptions]
    · simp only [apply_ite DBState.donations, markSold_donations,
        ite_self, creditDollars_donations]
  · have hmne : ¬ (a.p_payment_method = "points") := by
      rw [hm]; decide
    have hsd : ¬ (("dollars" : String) = "points") := by decide
    simp only [runPurchase, purchase_note, hnote, hap, hns, hmne, hm, hsd,
      Bool.false_eq_true, if_false, if_true, ite_true, ite_false,
      eq_self_iff_true, purchaseOk]
    refine ⟨trivial, ?_, ?_, ?_, ?_, ?_, ?_, ?_, ?_, ?_, ?_, ?_⟩
    · by_cases halias : note.user_id = a.p_buyer_id
      · simp only [apply_ite DBState.users, markSold_users, ite_self]
        rw [← halias, creditDollars_users_same _ _ _ pu hpu]
        have hpu2 : pu = bu := by
          rw [halias] at hpu
          rw [hbu] at hpu
          injection hpu with hpu
          exact hpu.symm
        subst hpu2
        exact ⟨_, rfl, rfl⟩
      · simp only [apply_ite DBState.users, markSold_users, ite_self]
        rw [creditDollars_users_other _ _ _ _ (fun h => halias h.symm)]
        rw [hbu]
        exact ⟨_, rfl, rfl⟩
    · simp only [apply_ite DBState.users, markSold_users, ite_self]
      rw [creditDollars_users_same _ _ _ pu hpu]
      exact ⟨_, rfl, rfl⟩
    · simp only [apply_ite DBState.transactions, markSold_transactions,
        ite_self, creditDollars_transactions]
    · simp only [apply_ite DBState.purchases, markSold_purchases, ite_self,
        creditDollars_purchases]
    · intro hexcl
      rw [if_pos hexcl]
      exact markSold_notes_same _ _ note (by simp [hnote])
    · intro hexcl
      rw [if_neg (by simp [hexcl])]
      simp [hnote]
    · intro u hu1 hu2
      simp only [apply_ite DBState.users, markSold_users, ite_self]
      rw [creditDollars_users_other _ _ _ _ hu2]
    · intro m hm1
      by_cases hexcl : note.is_exclusive = true
      · rw [if_pos hexcl]
        rw [markSold_notes_other _ _ _ hm1]
        simp
      · rw [if_neg hexcl]
        simp
    · simp only [apply_ite DBState.promo_codes, markSold_promo_codes,
        ite_self, creditDollars_promo_codes]
    · simp only [apply_ite DBState.redemptions, markSold_redemptions,
        ite_self, creditDollars_redemptions]
    · simp only [apply_ite DBState.donations, markSold_donations,
        ite_self, creditDollars_donations]

/-- C2: when every precondition of `purchase_note` holds, the transaction
commits with exactly the six specified effects: the points deduction (points
path only), the seller's credit of the full undiscounted dollar price, the
buyer and seller ledger rows, the purchase record, and the sold flip for
exclusive notes — and nothing else changes: other users' rows, other notes,
and the promo/redemption/donation tables are untouched. -/
theorem purchase_note_success_effects (st : DBState) (a : PurchaseArgs)
    (note : NoteRow) (bu pu : UserRow)
    (hnote : st.notes a.p_note_id = some note)
    (hap : alreadyPurchased st a.p_buyer_id a.p_note_id = false)
    (hns : (note.is_exclusive && note.is_sold) = false)
    (hm : a.p_payment_method = "points" ∨ a.p_payment_method = "dollars")
    (hbu : st.users a.p_buyer_id = some bu)
    (hpu : st.users note.user_id = some pu)
    (hbal : a.p_payment_method = "points" →
      a.p_points_cost ≤ bu.points_balance) :
    purchaseOk (runPurchase st a).2 = true ∧
    (∃ bu', (runPurchase st a).1.users a.p_buyer_id = some bu' ∧
      bu'.points_balance = (if a.p_payment_method = "points"
        then bu.points_balance - a.p_points_cost else bu.points_balance)) ∧
    (∃ pu', (runPurchase st a).1.users note.user_id = some pu' ∧
      pu'.dollar_balance = pu.dollar_balance + a.p_dollar_price) ∧
    (runPurchase st a).1.transactions = st.transactions ++
      [⟨a.p_buyer_id,
        (if a.p_payment_method = "points" then "note_bought_points"
         else "note_bought_dollars"),
        a.p_amount_charged, a.p_points_cost, some a.p_note_id⟩,
       ⟨note.user_id, "note_sale", a.p_dollar_price, 0, some a.p_note_id⟩] ∧
    (runPurchase st a).1.purchases = st.purchases ++
      [⟨a.p_buyer_id, a.p_note_id, a.p_amount_charged,
        a.p_payment_method⟩] ∧
    (note.is_exclusive = true →
      (runPurchase st a).1.notes a.p_note_id =
        some { note with is_sold := true }) ∧
    (note.is_exclusive = false →
      (runPurchase st a).1.notes a.p_note_id = st.notes a.p_note_id) ∧
    (∀ u, u ≠ a.p_buyer_id → u ≠ note.user_id →
      (runPurchase st a).1.users u = st.users u) ∧
    (∀ m, m ≠ a.p_note_id → (runPurchase st a).1.notes m = st.notes m) ∧
    (runPurchase st a).1.promo_codes = st.promo_codes ∧
    (runPurchase st a).1.redemptions = st.redemptions ∧
    (runPurchase st a).1.donations = st.donations :=
  purchase_note_success_core st a note bu pu hnote hap hns hm hbu hpu hbal

/-- C2 witness: user 1 buys note 10 from user 2 with points on the concrete
example state; the transaction commits and inserts the purchase record. -/
theorem purchase_note_success_effects_witness :
    purchaseOk (runPurchase exSt ⟨1, 10, "points", 10, 19/2, 100⟩).2 = true ∧
    (runPurchase exSt ⟨1, 10, "points", 10, 19/2, 100⟩).1.purchases =
      [⟨1, 10, 19/2, "points"⟩] := by
  have h := purchase_note_success_effects exSt ⟨1, 10, "points", 10, 19/2, 100⟩
    ⟨2, 10, true, false, false⟩ ⟨500, 0⟩ ⟨100, 5⟩ (by decide) (by decide)
    (by decide) (Or.inl rfl) (by decide) (by decide) (fun _ => by decide)
  exact ⟨h.1, by rw [h.2.2.2.2.1]; rfl⟩

/-! ## Step lemmas for purchase sequences (towards C3/C4) -/

/-- A successful conditional deduction: the user existed with sufficient
balance and only that user's points changed. -/
theorem deductPoints_some (st : DBState) (b : Nat) (c : Int)
    (p : DBState × Int) (h : deductPoints st b c = some p) :
    ∃ u, st.users b = some u ∧ c ≤ u.points_balance ∧
      p.1.users = updateFn st.users b
        ⟨u.points_balance - c, u.dollar_balance⟩ ∧
      p.1.notes = st.notes ∧ p.1.transactions = st.transactions ∧
      p.1.purchases = st.purchases ∧ p.1.promo_codes = st.promo_codes ∧
      p.1.redemptions = st.redemptions ∧ p.1.donations = st.donations ∧
      p.2 = u.points_balance - c := by
  unfold deductPoints at h
  cases hu : st.users b with
  | none =>
    simp only [hu] at h
    exact Option.noConfusion h
  | some u =>
    simp only [hu] at h
    by_cases hc : c ≤ u.points_balance
    · rw [if_pos hc] at h
      injection h with h
      subst h
      exact ⟨u, rfl, hc, rfl, rfl, rfl, rfl, rfl, rfl, rfl, rfl⟩
    · rw [if_neg hc] at h
      exact absurd h (by simp)

/-- A `purchase_note` transaction never touches any note other than its
target. -/
theorem runPurchase_notes_other (st : DBState) (a : PurchaseArgs) (m : Nat)
    (hne : m ≠ a.p_note_id) :
    ((runPurchase st a).1).notes m = st.notes m := by
  rcases hn : st.notes a.p_note_id with _ | note
  · simp [runPurchase, purchase_note, hn]
  · by_cases hap : alreadyPurchased st a.p_buyer_id a.p_note_id
    · simp [runPurchase, purchase_note, hn, hap]
    · by_cases hns : (note.is_exclusive && note.is_sold) = true
      · simp [runPurchase, purchase_note, hn, hap, hns]
      · by_cases hmethod : a.p_payment_method = "points"
        · cases hd : deductPoints st a.p_buyer_id a.p_points_cost with
          | none => simp [runPurchase, purchase_note, hn, hap, hns, hmethod, hd]
          | some p =>
            obtain ⟨u, -, -, -, hnotes, -⟩ := deductPoints_some st _ _ p hd
            by_cases hexcl : note.is_exclusive = true
            · simp only [runPurchase, purchase_note, hn, hap, hns, hmethod,
                hd, Bool.false_eq_true, if_false, if_true, ite_true,
                ite_false, eq_self_iff_true]
              rw [if_pos hexcl, markSold_notes_other _ _ _ hne]
              simp [hnotes]
            · simp only [runPurchase, purchase_note, hn, hap, hns, hmethod,
                hd, Bool.false_eq_true, if_false, if_true, ite_true,
                ite_false, eq_self_iff_true]
              rw [if_neg hexcl]
              simp [hnotes]
        · by_cases hexcl : note.is_exclusive = true
          · simp only [runPurchase, purchase_note, hn, hap, hns, hmethod,
              Bool.false_eq_true, if_false, if_true, ite_true, ite_false,
              eq_self_iff_true]
            rw [if_pos hexcl, markSold_notes_other _ _ _ hne]
            simp
          · simp only [runPurchase, purchase_note, hn, hap, hns, hmethod,
              Bool.false_eq_true, if_false, if_true, ite_true, ite_false,
              eq_self_iff_true]
            rw [if_neg hexcl]
            simp

/-- One `purchase_note` transaction, seen from a fixed exclusive note `n`:
the note survives, stays exclusive, its sold flag becomes true exactly when
it was already true or this very transaction commits against `n`, and a
transaction against `n` when the flag is already set can only fail with
`AlreadyPurchased` or `ExclusiveAlreadySold`. -/
theorem runPurchase_exclusive_step (st : DBState) (a : PurchaseArgs) (n : Nat)
    (nt : NoteRow) (hn : st.notes n = some nt) (hex : nt.is_exclusive = true) :
    ∃ nt', ((runPurchase st a).1).notes n = some nt' ∧
      nt'.is_exclusive = true ∧
      nt'.is_sold = (nt.is_sold ||
        (decide (a.p_note_id = n) && purchaseOk (runPurchase st a).2)) ∧
      (nt.is_sold = true → a.p_note_id = n →
        (runPurchase st a).2 = .error .AlreadyPurchased ∨
        (runPurchase st a).2 = .error .ExclusiveAlreadySold) := by
  by_cases htgt : a.p_note_id = n
  · subst htgt
    by_cases hap : alreadyPurchased st a.p_buyer_id a.p_note_id
    · refine ⟨nt, ?_, hex, ?_, ?_⟩ <;>
        simp [runPurchase, purchase_note, hn, hap, purchaseOk]
    · by_cases hsold : nt.is_sold = true
      · have hns : (nt.is_exclusive && nt.is_sold) = true := by
          simp [hex, hsold]
        refine ⟨nt, ?_, hex, ?_, ?_⟩ <;>
          simp [runPurchase, purchase_note, hn, hap, hns, purchaseOk, hsold,
            hex]
      · have hsold' : nt.is_sold = false := by
          cases h : nt.is_sold
          · rfl
          · exact absurd h hsold
        have hns : (nt.is_exclusive && nt.is_sold) = false := by
          simp [hsold']
        by_cases hmethod : a.p_payment_method = "points"
        · cases hd : deductPoints st a.p_buyer_id a.p_points_cost with
          | none =>
            refine ⟨nt, ?_, hex, ?_, ?_⟩ <;>
              simp [runPurchase, purchase_note, hn, hap, hns, hmethod, hd,
                purchaseOk, hsold']
          | some p =>
            obtain ⟨u, -, -, -, hnotes, -⟩ := deductPoints_some st _ _ p hd
            refine ⟨{ nt with is_sold := true }, ?_, hex, ?_, ?_⟩
            · simp only [runPurchase, purchase_note, hn, hap, hns, hmethod,
                hd, Bool.false_eq_true, if_false, if_true, ite_true,
                ite_false, eq_self_iff_true]
              rw [if_pos hex]
              exact markSold_notes_same _ _ nt (by simp [hnotes, hn])
            · simp [runPurchase, purchase_note, hn, hap, hns, hmethod, hd,
                purchaseOk, hsold']
            · intro h
              exact absurd h (by simp [hsold'])
        · refine ⟨{ nt with is_sold := true }, ?_, hex, ?_, ?_⟩
          · simp only [runPurchase, purchase_note, hn, hap, hns, hmethod,
              Bool.false_eq_true, if_false, if_true, ite_true, ite_false,
              eq_self_iff_true]
            rw [if_pos hex]
            exact markSold_notes_same _ _ nt (by simp [hn])
          · simp [runPurchase, purchase_note, hn, hap, hns, hmethod,
              purchaseOk, hsold']
          · intro h
            exact absurd h (by simp [hsold'])
  · refine ⟨nt, ?_, hex, ?_, ?_⟩
    · rw [runPurchase_notes_other st a n (fun h => htgt h.symm)]
      exact hn
    · simp [htgt]
    · intro _ h
      exact absurd h htgt

/-! ## Trace lemmas for purchase sequences -/

theorem execPurchases_append (st : DBState) (l1 l2 : List PurchaseArgs) :
    execPurchases st (l1 ++ l2) = execPurchases (execPurchases st l1) l2 := by
  simp [execPurchases, List.foldl_append]

theorem successesOn_append (n : Nat) :
    ∀ (l1 l2 : List PurchaseArgs) (st : DBState),
    successesOn n st (l1 ++ l2) =
      successesOn n st l1 + successesOn n (execPurchases st l1) l2
  | [], l2, st => by simp [successesOn, execPurchases]
  | a :: t, l2, st => by
    have h1 : successesOn n st ((a :: t) ++ l2) =
        (if a.p_note_id = n ∧ purchaseOk (runPurchase st a).2 = true
         then 1 else 0) + successesOn n (runPurchase st a).1 (t ++ l2) := rfl
    have h2 : successesOn n st (a :: t) =
        (if a.p_note_id = n ∧ purchaseOk (runPurchase st a).2 = true
         then 1 else 0) + successesOn n (runPurchase st a).1 t := rfl
    have h3 : execPurchases st (a :: t) =
        execPurchases (runPurchase st a).1 t := rfl
    rw [h1, h2, h3, successesOn_append n t l2 (runPurchase st a).1]
    omega

/-- Once an exclusive note's `is_sold` flag is set, no later purchase in any
sequence ever commits against it. -/
theorem successesOn_zero_of_sold (n : Nat) :
    ∀ (ops : List PurchaseArgs) (st : DBState) (nt : NoteRow),
    st.notes n = some nt → nt.is_exclusive = true → nt.is_sold = true →
    successesOn n st ops = 0
  | [], _, _, _, _, _ => rfl
  | a :: rest, st, nt, hn, hex, hsold => by
    obtain ⟨nt1, hn1, hex1, hsold1, hfail⟩ :=
      runPurchase_exclusive_step st a n nt hn hex
    have hsold1' : nt1.is_sold = true := by rw [hsold1]; simp [hsold]
    have hrest := successesOn_zero_of_sold n rest (runPurchase st a).1 nt1
      hn1 hex1 hsold1'
    have hcnt : successesOn n st (a :: rest) =
        (if a.p_note_id = n ∧ purchaseOk (runPurchase st a).2 = true
         then 1 else 0) + successesOn n (runPurchase st a).1 rest := rfl
    rw [hcnt, hrest]
    by_cases htgt : a.p_note_id = n
    · rcases hfail hsold htgt with h | h <;>
        · rw [if_neg]
          rintro ⟨-, hok⟩
          rw [h] at hok
          exact Bool.noConfusion hok
    · rw [if_neg (fun hc => htgt hc.1)]

/-- The state of an exclusive note along a purchase trace: it survives, stays
exclusive, and its sold flag is exactly `initial sold OR some purchase of it
committed`. -/
theorem exclusive_trace_invariant (n : Nat) :
    ∀ (ops : List PurchaseArgs) (st : DBState) (nt : NoteRow),
    st.notes n = some nt → nt.is_exclusive = true →
    ∃ nt', (execPurchases st ops).notes n = some nt' ∧
      nt'.is_exclusive = true ∧
      nt'.is_sold = (nt.is_sold || decide (1 ≤ successesOn n st ops))
  | [], st, nt, hn, hex =>
    ⟨nt, by simpa [execPurchases] using hn, hex, by simp [successesOn]⟩
  | a :: rest, st, nt, hn, hex => by
    obtain ⟨nt1, hn1, hex1, hsold1, -⟩ :=
      runPurchase_exclusive_step st a n nt hn hex
    obtain ⟨nt', hn', hex', hsold'⟩ :=
      exclusive_trace_invariant n rest (runPurchase st a).1 nt1 hn1 hex1
    refine ⟨nt', by simpa [execPurchases] using hn', hex', ?_⟩
    rw [hsold', hsold1]
    have hcnt : successesOn n st (a :: rest) =
        (if a.p_note_id = n ∧ purchaseOk (runPurchase st a).2 = true
         then 1 else 0) + successesOn n (runPurchase st a).1 rest := rfl
    rw [hcnt]
    by_cases hc : a.p_note_id = n ∧ purchaseOk (runPurchase st a).2 = true
    · rw [if_pos hc]
      simp [hc.1, hc.2]
    · rw [if_neg hc]
      have hff : (decide (a.p_note_id = n) &&
          purchaseOk (runPurchase st a).2) = false := by
        rcases Decidable.em (a.p_note_id = n) with h1 | h1
        · cases hpo : purchaseOk (runPurchase st a).2
          · simp
          · exact absurd ⟨h1, hpo⟩ hc
        · simp [h1]
      rw [hff]
      simp [Bool.or_assoc]

/-- Against an exclusive note, at most one purchase in any sequence commits. -/
theorem successesOn_le_one (n : Nat) :
    ∀ (ops : List PurchaseArgs) (st : DBState) (nt : NoteRow),
    st.notes n = some nt → nt.is_exclusive = true →
    successesOn n st ops ≤ 1
  | [], _, _, _, _ => by simp [successesOn]
  | a :: rest, st, nt, hn, hex => by
    obtain ⟨nt1, hn1, hex1, hsold1, -⟩ :=
      runPurchase_exclusive_step st a n nt hn hex
    have hcnt : successesOn n st (a :: rest) =
        (if a.p_note_id = n ∧ purchaseOk (runPurchase st a).2 = true
         then 1 else 0) + successesOn n (runPurchase st a).1 rest := rfl
    by_cases hc : a.p_note_id = n ∧ purchaseOk (runPurchase st a).2 = true
    · have hsold1' : nt1.is_sold = true := by
        rw [hsold1]
        simp [hc.1, hc.2]
      have hrest := successesOn_zero_of_sold n rest (runPurchase st a).1 nt1
        hn1 hex1 hsold1'
      rw [hcnt, if_pos hc, hrest]
    · rw [hcnt, if_neg hc]
      have := successesOn_le_one n rest (runPurchase st a).1 nt1 hn1 hex1
      omega

/-! ## C3 -/

/-- C3: for an exclusive note starting unsold, along any sequence of
`purchase_note` transactions: at most one purchase of it ever commits; after
any prefix, its sold flag is set exactly when a purchase of it has committed
in that prefix (so the flag flips false→true atomically with the one
successful purchase and is never reset); the flag is monotone along the
trace; and any attempt against the note made once the flag is set fails with
`AlreadyPurchased` or `ExclusiveAlreadySold`. -/
theorem exclusive_note_sold_at_most_once (st : DBState) (n : Nat)
    (nt : NoteRow) (ops : List PurchaseArgs) (hn : st.notes n = some nt)
    (hex : nt.is_exclusive = true) (hsold : nt.is_sold = false) :
    successesOn n st ops ≤ 1 ∧
    (∀ i, soldFlag (execPurchases st (ops.take i)) n =
      decide (1 ≤ successesOn n st (ops.take i))) ∧
    (∀ i j, i ≤ j → soldFlag (execPurchases st (ops.take i)) n = true →
      soldFlag (execPurchases st (ops.take j)) n = true) ∧
    (∀ i a, ops.get? i = some a → a.p_note_id = n →
      soldFlag (execPurchases st (ops.take i)) n = true →
      (runPurchase (execPurchases st (ops.take i)) a).2 =
        .error .AlreadyPurchased ∨
      (runPurchase (execPurchases st (ops.take i)) a).2 =
        .error .ExclusiveAlreadySold) := by
  refine ⟨successesOn_le_one n ops st nt hn hex, ?_, ?_, ?_⟩
  · intro i
    obtain ⟨nt', hn', -, hsold'⟩ :=
      exclusive_trace_invariant n (ops.take i) st nt hn hex
    simp [soldFlag, hn', hsold', hsold]
  · intro i j hij hs
    obtain ⟨nti, hni, -, hsoldi⟩ :=
      exclusive_trace_invariant n (ops.take i) st nt hn hex
    obtain ⟨ntj, hnj, -, hsoldj⟩ :=
      exclusive_trace_invariant n (ops.take j) st nt hn hex
    have htj : ops.take j = ops.take i ++ (ops.drop i).take (j - i) := by
      rw [← List.take_add]
      congr 1
      omega
    have hcnt : successesOn n st (ops.take i) ≤
        successesOn n st (ops.take j) := by
      rw [htj, successesOn_append]
      omega
    simp [soldFlag, hni, hsoldi, hsold] at hs
    simp [soldFlag, hnj, hsoldj, hsold]
    omega
  · intro i a hget htgt hs
    obtain ⟨nt', hn', hex', hsold'⟩ :=
      exclusive_trace_invariant n (ops.take i) st nt hn hex
    have hs' : nt'.is_sold = true := by
      have hflag : soldFlag (execPurchases st (ops.take i)) n =
          nt'.is_sold := by
        simp [soldFlag, hn']
      rw [← hflag]
      exact hs
    obtain ⟨-, -, -, -, hfail⟩ := runPurchase_exclusive_step
      (execPurchases st (ops.take i)) a n nt' hn' hex'
    exact hfail hs' htgt

/-- C3 witness: two buyers race for the exclusive note 11; the bound on
committed purchases instantiated on the concrete example state. -/
theorem exclusive_note_sold_at_most_once_witness :
    successesOn 11 exSt
      [⟨1, 11, "dollars", 3, 3, 0⟩, ⟨3, 11, "dollars", 3, 3, 0⟩] ≤ 1 :=
  (exclusive_note_sold_at_most_once exSt 11 ⟨2, 3, true, true, false⟩
    [⟨1, 11, "dollars", 3, 3, 0⟩, ⟨3, 11, "dollars", 3, 3, 0⟩]
    (by decide) (by decide) (by decide)).1

/-! ## C4: points balances stay non-negative -/

/-- All points balances in the state are non-negative. -/
def PointsNonneg (st : DBState) : Prop :=
  ∀ u r, st.users u = some r → 0 ≤ r.points_balance

/-- Every promo code grants a positive number of points (the table constraint
`CHECK (points_amount > 0)`). -/
def PromoPositive (st : DBState) : Prop :=
  ∀ e ∈ st.promo_codes, 0 < e.2.points_amount

/-- The operation argument constraint: a `buy_points` call credits a
non-negative number of points (points packages are positive grants). -/
def opWF : LedgerOp → Prop
  | .buyPts _ _ points => 0 ≤ points
  | _ => True

/-- Crediting dollars never changes anyone's points balance. -/
theorem creditDollars_users_points (st : DBState) (uid : Nat) (amt : ℚ)
    (u : Nat) :
    ((creditDollars st uid amt).users u).map UserRow.points_balance =
      (st.users u).map UserRow.points_balance := by
  unfold creditDollars
  cases hu : st.users uid with
  | none => rfl
  | some r =>
    by_cases h : u = uid
    · subst h
      simp [hu]
    · simp [updateFn, h]

/-- A `purchase_note` transaction leaves every points balance either unchanged
or reduced by `p_points_cost` under the balance ≥ cost guard. -/
theorem runPurchase_users_points (st : DBState) (a : PurchaseArgs) (u : Nat) :
    ((runPurchase st a).1.users u).map UserRow.points_balance =
      (st.users u).map UserRow.points_balance ∨
    (∃ r, st.users u = some r ∧ a.p_points_cost ≤ r.points_balance ∧
      ((runPurchase st a).1.users u).map UserRow.points_balance =
        some (r.points_balance - a.p_points_cost)) := by
  rcases hn : st.notes a.p_note_id with _ | note
  · left
    simp [runPurchase, purchase_note, hn]
  · by_cases hap : alreadyPurchased st a.p_buyer_id a.p_note_id
    · left
      simp [runPurchase, purchase_note, hn, hap]
    · by_cases hns : (note.is_exclusive && note.is_sold) = true
      · left
        simp [runPurchase, purchase_note, hn, hap, hns]
      · by_cases hmethod : a.p_payment_method = "points"
        · cases hd : deductPoints st a.p_buyer_id a.p_points_cost with
          | none =>
            left
            simp [runPurchase, purchase_note, hn, hap, hns, hmethod, hd]
          | some p =>
            obtain ⟨r, hr, hle, husers, -⟩ := deductPoints_some st _ _ p hd
            have hred : ((runPurchase st a).1).users =
                (creditDollars p.1 note.user_id a.p_dollar_price).users := by
              simp only [runPurchase, purchase_note, hn, hap, hns, hmethod,
                hd, Bool.false_eq_true, if_false, if_true, ite_true,
                ite_false, eq_self_iff_true]
              by_cases hexcl : note.is_exclusive = true
              · rw [if_pos hexcl]
                simp
              · rw [if_neg hexcl]
            by_cases hu : u = a.p_buyer_id
            · subst hu
              right
              refine ⟨r, hr, hle, ?_⟩
              rw [hred, creditDollars_users_points, husers]
              simp
            · left
              rw [hred, creditDollars_users_points, husers,
                updateFn_other _ _ _ _ hu]
        · have hred : ((runPurchase st a).1).users =
              (creditDollars st note.user_id a.p_dollar_price).users := by
            simp only [runPurchase, purchase_note, hn, hap, hns, hmethod,
              Bool.false_eq_true, if_false, if_true, ite_true, ite_false,
              eq_self_iff_true]
            by_cases hexcl : note.is_exclusive = true
            · rw [if_pos hexcl]
              simp
            · rw [if_neg hexcl]
          left
          rw [hred, creditDollars_users_points]

/-- Crediting a non-negative number of points preserves non-negativity. -/
theorem creditPoints_nonneg (st : DBState) (uid : Nat) (pts : Int)
    (h : PointsNonneg st) (hpts : 0 ≤ pts) :
    PointsNonneg (creditPoints st uid pts) := by
  unfold creditPoints
  cases hu : st.users uid with
  | none => exact h
  | some r =>
    intro v s hs
    by_cases hv : v = uid
    · subst hv
      simp only [updateFn_same] at hs
      injection hs with hs
      subst hs
      have := h _ _ hu
      show 0 ≤ r.points_balance + pts
      omega
    · simp only [updateFn_other _ _ _ _ hv] at hs
      exact h _ _ hs

theorem stepOp_purchase_nonneg (st : DBState) (a : PurchaseArgs)
    (h : PointsNonneg st) : PointsNonneg ((runPurchase st a).1) := by
  intro u r' hr'
  rcases runPurchase_users_points st a u with heq | ⟨r, hr, hle, heq⟩
  · cases hu : st.users u with
    | none =>
      rw [hr', hu] at heq
      simp at heq
    | some r =>
      rw [hr', hu] at heq
      simp at heq
      rw [heq]
      exact h _ _ hu
  · rw [hr'] at heq
    simp at heq
    rw [heq]
    have := hle
    omega

theorem stepOp_buyPts_nonneg (st : DBState) (uid : Nat) (amt : ℚ) (pts : Int)
    (h : PointsNonneg st) (hpts : 0 ≤ pts) :
    PointsNonneg (runBuyPoints st uid amt pts) := by
  unfold runBuyPoints buy_points
  cases hu : st.users uid with
  | none => exact h
  | some r =>
    intro v s hs
    by_cases hv : v = uid
    · subst hv
      simp only [updateFn_same] at hs
      injection hs with hs
      subst hs
      have := h _ _ hu
      show 0 ≤ r.points_balance + pts
      omega
    · simp only [updateFn_other _ _ _ _ hv] at hs
      exact h _ _ hs

theorem stepOp_redeem_nonneg (st : DBState) (now : Int) (code : String)
    (uid : Nat) (h : PointsNonneg st) (hp : PromoPositive st) :
    PointsNonneg ((redeem_promo_code st now code uid).1) := by
  unfold redeem_promo_code
  split
  · exact h
  next cid c hf =>
    have hpos : 0 < c.points_amount :=
      hp _ (List.mem_of_find?_eq_some hf)
    split
    · exact h
    split
    · exact h
    split
    · exact h
    split
    · exact h
    exact creditPoints_nonneg _ uid c.points_amount h (le_of_lt hpos)

theorem stepOp_donate_nonneg (st : DBState) (donorId noteId : Nat)
    (pts : Int) (msg : Option String) (h : PointsNonneg st) :
    PointsNonneg ((donate st donorId noteId pts msg).1) := by
  unfold donate
  split
  · exact h
  next h1 =>
    split
    · exact h
    next note hn =>
      split
      · exact h
      next h2 =>
        split
        · exact h
        next h3 =>
          split
          · exact h
          next h4 =>
            split
            · exact h
            next donor hu =>
              by_cases h5 : donor.points_balance < pts
              · simp only [if_pos h5]
                exact h
              · simp only [if_neg h5]
                have hct : ALLOWED_AMOUNTS.contains pts = true := by
                  rcases Bool.eq_false_or_eq_true
                      (ALLOWED_AMOUNTS.contains pts) with hc | hc
                  · exact hc
                  · exact absurd hc h1
                have hpts : 0 ≤ pts := by
                  simp [ALLOWED_AMOUNTS] at hct
                  rcases hct with rfl | rfl | rfl | rfl <;> decide
                have hq : (0 : ℚ) ≤ (pts : ℚ) := by exact_mod_cast hpts
                have hfee : (0 : ℚ) ≤ 1 - PLATFORM_FEE := by
                  rw [show PLATFORM_FEE = 30 / 100 from rfl]
                  norm_num
                have hfloor : (0 : Int) ≤ ⌊(pts : ℚ) * (1 - PLATFORM_FEE)⌋ :=
                  Int.le_floor.mpr (by simpa using mul_nonneg hq hfee)
                refine creditPoints_nonneg _ _ _ ?_ hfloor
                intro v r hr
                by_cases hv : v = donorId
                · subst hv
                  simp only [updateFn_same] at hr
                  injection hr with hr
                  subst hr
                  show 0 ≤ donor.points_balance - pts
                  omega
                · simp only [updateFn_other _ _ _ _ hv] at hr
                  exact h _ _ hr

theorem creditPoints_promo_codes (st : DBState) (uid : Nat) (pts : Int) :
    (creditPoints st uid pts).promo_codes = st.promo_codes := by
  unfold creditPoints
  cases st.users uid <;> rfl

theorem creditPoints_redemptions (st : DBState) (uid : Nat) (pts : Int) :
    (creditPoints st uid pts).redemptions = st.redemptions := by
  unfold creditPoints
  cases st.users uid <;> rfl

theorem runPurchase_promo_codes (st : DBState) (a : PurchaseArgs) :
    ((runPurchase st a).1).promo_codes = st.promo_codes := by
  rcases hn : st.notes a.p_note_id with _ | note
  · simp [runPurchase, purchase_note, hn]
  · by_cases hap : alreadyPurchased st a.p_buyer_id a.p_note_id
    · simp [runPurchase, purchase_note, hn, hap]
    · by_cases hns : (note.is_exclusive && note.is_sold) = true
      · simp [runPurchase, purchase_note, hn, hap, hns]
      · by_cases hmethod : a.p_payment_method = "points"
        · cases hd : deductPoints st a.p_buyer_id a.p_points_cost with
          | none => simp [runPurchase, purchase_note, hn, hap, hns, hmethod, hd]
          | some p =>
            obtain ⟨u, -, -, -, -, -, -, hpromo, -, -, -⟩ :=
              deductPoints_some st _ _ p hd
            simp only [runPurchase, purchase_note, hn, hap, hns, hmethod, hd,
              Bool.false_eq_true, if_false, if_true, ite_true, ite_false,
              eq_self_iff_true]
            simp [apply_ite DBState.promo_codes, hpromo]
        · simp only [runPurchase, purchase_note, hn, hap, hns, hmethod,
            Bool.false_eq_true, if_false, if_true, ite_true, ite_false,
            eq_self_iff_true]
          simp [apply_ite DBState.promo_codes]

theorem runBuyPoints_promo_codes (st : DBState) (uid : Nat) (amt : ℚ)
    (pts : Int) : (runBuyPoints st uid amt pts).promo_codes = st.promo_codes := by
  unfold runBuyPoints buy_points
  cases st.users uid <;> rfl

/-- Incrementing a code's usage counter preserves the positivity of every
code's point grant. -/
theorem promoPositive_incrementUses (codes : List (Nat × PromoCodeRow))
    (cid : Nat) (hp : ∀ e ∈ codes, 0 < e.2.points_amount) :
    ∀ e ∈ incrementUses codes cid, 0 < e.2.points_amount := by
  intro e he
  unfold incrementUses at he
  obtain ⟨e0, he0, heq⟩ := List.mem_map.mp he
  by_cases h : e0.1 = cid
  · rw [if_pos h] at heq
    rw [← heq]
    exact hp e0 he0
  · rw [if_neg h] at heq
    rw [← heq]
    exact hp e0 he0

theorem stepOp_promo_positive (st : DBState) (op : LedgerOp)
    (hp : PromoPositive st) : PromoPositive (stepOp st op) := by
  cases op with
  | purchase a =>
    intro e he
    rw [show (stepOp st (.purchase a)).promo_codes =
      ((runPurchase st a).1).promo_codes from rfl, runPurchase_promo_codes]
      at he
    exact hp e he
  | buyPts uid amt pts =>
    intro e he
    rw [show (stepOp st (.buyPts uid amt pts)).promo_codes =
      (runBuyPoints st uid amt pts).promo_codes from rfl,
      runBuyPoints_promo_codes] at he
    exact hp e he
  | redeem now code uid =>
    show PromoPositive ((redeem_promo_code st now code uid).1)
    unfold redeem_promo_code
    split
    · exact hp
    next cid c hf =>
      split
      · exact hp
      split
      · exact hp
      split
      · exact hp
      split
      · exact hp
      intro e he
      simp only [creditPoints_promo_codes] at he
      exact promoPositive_incrementUses _ cid hp e he
  | donation donorId noteId pts msg =>
    show PromoPositive ((donate st donorId noteId pts msg).1)
    unfold donate
    split
    · exact hp
    next h1 =>
      split
      · exact hp
      next note hn =>
        split
        · exact hp
        next h2 =>
          split
          · exact hp
          next h3 =>
            split
            · exact hp
            next h4 =>
              split
              · exact hp
              next donor hu =>
                by_cases h5 : donor.points_balance < pts
                · simp only [if_pos h5]
                  exact hp
                · simp only [if_neg h5]
                  intro e he
                  simp only [creditPoints_promo_codes] at he
                  exact hp e he

theorem stepOp_nonneg (st : DBState) (op : LedgerOp) (h : PointsNonneg st)
    (hp : PromoPositive st) (hwf : opWF op) : PointsNonneg (stepOp st op) := by
  cases op with
  | purchase a => exact stepOp_purchase_nonneg st a h
  | buyPts uid amt pts => exact stepOp_buyPts_nonneg st uid amt pts h hwf
  | redeem now code uid => exact stepOp_redeem_nonneg st now code uid h hp
  | donation donorId noteId pts msg =>
    exact stepOp_donate_nonneg st donorId noteId pts msg h

theorem execOps_nonneg (ops : List LedgerOp) :
    ∀ (st : DBState), PointsNonneg st → PromoPositive st →
    (∀ op ∈ ops, opWF op) → PointsNonneg (execOps st ops) := by
  induction ops with
  | nil => intro st h _ _; simpa [execOps] using h
  | cons op rest ih =>
    intro st h hp hwf
    have h1 : PointsNonneg (stepOp st op) :=
      stepOp_nonneg st op h hp (hwf op (List.mem_cons_self op rest))
    have hp1 : PromoPositive (stepOp st op) := stepOp_promo_positive st op hp
    have hstep : execOps st (op :: rest) = execOps (stepOp st op) rest := rfl
    rw [hstep]
    exact ih (stepOp st op) h1 hp1
      (fun o ho => hwf o (List.mem_cons_of_mem _ ho))

/-! ## C4 -/

/-- C4: starting from a state where every points balance is non-negative
(and, per the table constraint, every promo code grants positively many
points), any sequence of ledger operations — `purchase_note`, `buy_points`
with a non-negative grant, `redeem_promo_code`, `donate` — keeps every user's
points balance non-negative after every prefix: each deduction is guarded by
a balance ≥ cost condition, so balances never go below zero. -/
theorem ledger_points_balances_nonneg (st : DBState) (ops : List LedgerOp)
    (h : PointsNonneg st) (hp : PromoPositive st)
    (hwf : ∀ op ∈ ops, opWF op) :
    ∀ i, PointsNonneg (execOps st (ops.take i)) := by
  intro i
  exact execOps_nonneg (ops.take i) st h hp
    (fun o ho => hwf o (List.take_subset i ops ho))

/-- C4 witness: buy points, purchase a note with points, redeem a promo code
and tip a free note on the concrete example state; all points balances stay
non-negative after two steps and after all four. -/
theorem ledger_points_balances_nonneg_witness :
    PointsNonneg (execOps exSt
      (([.buyPts 3 1 100, .purchase ⟨1, 10, "points", 10, 19/2, 100⟩,
         .redeem 0 "WELCOME100" 3, .donation 1 12 25 none] :
        List LedgerOp).take 2)) ∧
    PointsNonneg (execOps exSt
      (([.buyPts 3 1 100, .purchase ⟨1, 10, "points", 10, 19/2, 100⟩,
         .redeem 0 "WELCOME100" 3, .donation 1 12 25 none] :
        List LedgerOp).take 4)) := by
  have h1 : PointsNonneg exSt := by
    intro u r hr
    unfold exSt exUsers at hr
    simp only [] at hr
    split at hr
    · injection hr with hr
      subst hr
      decide
    · split at hr
      · injection hr with hr
        subst hr
        decide
      · split at hr
        · injection hr with hr
          subst hr
          decide
        · split at hr
          · injection hr with hr
            subst hr
            decide
          · exact Option.noConfusion hr
  have h2 : PromoPositive exSt := by
    intro e he
    have he' : e = (100, ⟨"WELCOME100", 100, none, true, none, 0⟩) ∨
        e = (101, ⟨"BETA50", 50, some 1000, true, some 1, 0⟩) ∨
        e = (102, ⟨"secret10", 10, none, true, none, 0⟩) := by
      simpa [exSt, exCodes] using he
    rcases he' with rfl | rfl | rfl <;> decide
  have h3 : ∀ op ∈ ([.buyPts 3 1 100,
      .purchase ⟨1, 10, "points", 10, 19/2, 100⟩,
      .redeem 0 "WELCOME100" 3, .donation 1 12 25 none] : List LedgerOp),
      opWF op := by
    intro op hop
    have hop' : op = .buyPts 3 1 100 ∨
        op = .purchase ⟨1, 10, "points", 10, 19/2, 100⟩ ∨
        op = .redeem 0 "WELCOME100" 3 ∨
        op = .donation 1 12 25 none := by
      simpa using hop
    rcases hop' with rfl | rfl | rfl | rfl
    · exact (by decide : (0 : Int) ≤ 100)
    · trivial
    · trivial
    · trivial
  exact ⟨ledger_points_balances_nonneg exSt _ h1 h2 h3 2,
    ledger_points_balances_nonneg exSt _ h1 h2 h3 4⟩

/-! ## C5 -/

/-- The success branch of `redeem_promo_code`, written out: all five checks
pass and the four effects land in the state. -/
theorem redeem_success_eq (st : DBState) (now : Int) (code : String)
    (uid cid : Nat) (c : PromoCodeRow) (u : UserRow)
    (hf : findPromoCode st code = some (cid, c))
    (hact : c.is_active = true) (hexp : promoExpired c now = false)
    (hcap : promoCapReached c = false)
    (halr : alreadyRedeemed st cid uid = false)
    (hu : st.users uid = some u) :
    redeem_promo_code st now code uid =
      (⟨updateFn st.users uid
          ⟨u.points_balance + c.points_amount, u.dollar_balance⟩,
        st.notes,
        st.transactions ++
          [⟨uid, "promo_code_redemption", 0, c.points_amount, none⟩],
        st.purchases,
        incrementUses st.promo_codes cid,
        st.redemptions ++ [⟨cid, uid, c.points_amount⟩],
        st.donations⟩,
       ⟨true, "Promo code redeemed successfully!", c.points_amount⟩) := by
  simp [redeem_promo_code, hf, hact, hexp, hcap, halr, creditPoints, hu]

/-- C5 (amended): `redeem_promo_code` is a total function returning a
structured `{success, message, points_received}` row. It checks, in order,
existence, activity, expiry (null never expires), the usage cap
(null unlimited), and prior redemption by this user; the first failing check
returns `success = false` with its own distinct message, zero points, and an
unchanged state. When every check passes, exactly the four effects happen —
redemption record inserted, user's balance incremented by the code's
`points_amount`, `current_uses` incremented, `promo_code_redemption`
transaction row inserted — and `points_received` equals `points_amount`.
A second redemption by the same user fails and credits nothing; it reports
the already-redeemed message provided the first redemption did not exhaust
the code's usage cap (the cap check precedes the redemption check, so an
exhausted cap reports the cap message instead). -/
theorem redeem_promo_code_spec (st : DBState) (now : Int) (code : String)
    (uid : Nat) :
    (findPromoCode st code = none →
      redeem_promo_code st now code uid =
        (st, ⟨false, "Invalid promo code", 0⟩)) ∧
    (∀ cid c, findPromoCode st code = some (cid, c) →
      c.is_active = false →
      redeem_promo_code st now code uid =
        (st, ⟨false, "This promo code is no longer active", 0⟩)) ∧
    (∀ cid c, findPromoCode st code = some (cid, c) →
      c.is_active = true → promoExpired c now = true →
      redeem_promo_code st now code uid =
        (st, ⟨false, "This promo code has expired", 0⟩)) ∧
    (∀ cid c, findPromoCode st code = some (cid, c) →
      c.is_active = true → promoExpired c now = false →
      promoCapReached c = true →
      redeem_promo_code st now code uid =
        (st, ⟨false,
          "This promo code has reached its maximum usage limit", 0⟩)) ∧
    (∀ cid c, findPromoCode st code = some (cid, c) →
      c.is_active = true → promoExpired c now = false →
      promoCapReached c = false → alreadyRedeemed st cid uid = true →
      redeem_promo_code st now code uid =
        (st, ⟨false, "You have already redeemed this promo code", 0⟩)) ∧
    (∀ cid c u, findPromoCode st code = some (cid, c) →
      c.is_active = true → promoExpired c now = false →
      promoCapReached c = false → alreadyRedeemed st cid uid = false →
      st.users uid = some u →
      redeem_promo_code st now code uid =
        (⟨updateFn st.users uid
            ⟨u.points_balance + c.points_amount, u.dollar_balance⟩,
          st.notes,
          st.transactions ++
            [⟨uid, "promo_code_redemption", 0, c.points_amount, none⟩],
          st.purchases,
          incrementUses st.promo_codes cid,
          st.redemptions ++ [⟨cid, uid, c.points_amount⟩],
          st.donations⟩,
         ⟨true, "Promo code redeemed successfully!", c.points_amount⟩)) ∧
    (∀ cid c u, findPromoCode st code = some (cid, c) →
      c.is_active = true → promoExpired c now = false →
      promoCapReached c = false → alreadyRedeemed st cid uid = false →
      st.users uid = some u →
      promoCapReached { c with current_uses := c.current_uses + 1 } = false →
      redeem_promo_code (redeem_promo_code st now code uid).1 now code uid =
        ((redeem_promo_code st now code uid).1,
         ⟨false, "You have already redeemed this promo code", 0⟩)) ∧
    (("Invalid promo code" : String) ≠
        "This promo code is no longer active" ∧
      ("Invalid promo code" : String) ≠ "This promo code has expired" ∧
      ("Invalid promo code" : String) ≠
        "This promo code has reached its maximum usage limit" ∧
      ("Invalid promo code" : String) ≠
        "You have already redeemed this promo code" ∧
      ("This promo code is no longer active" : String) ≠
        "This promo code has expired" ∧
      ("This promo code is no longer active" : String) ≠
        "This promo code has reached its maximum usage limit" ∧
      ("This promo code is no longer active" : String) ≠
        "You have already redeemed this promo code" ∧
      ("This promo code has expired" : String) ≠
        "This promo code has reached its maximum usage limit" ∧
      ("This promo code has expired" : String) ≠
        "You have already redeemed this promo code" ∧
      ("This promo code has reached its maximum usage limit" : String) ≠
        "You have already redeemed this promo code") := by
  refine ⟨?_, ?_, ?_, ?_, ?_, ?_, ?_, by decide⟩
  · intro hf
    simp [redeem_promo_code, hf]
  · intro cid c hf hact
    simp [redeem_promo_code, hf, hact]
  · intro cid c hf hact hexp
    simp [redeem_promo_code, hf, hact, hexp]
  · intro cid c hf hact hexp hcap
    simp [redeem_promo_code, hf, hact, hexp, hcap]
  · intro cid c hf hact hexp hcap halr
    simp [redeem_promo_code, hf, hact, hexp, hcap, halr]
  · intro cid c u hf hact hexp hcap halr hu
    exact redeem_success_eq st now code uid cid c u hf hact hexp hcap halr hu
  · intro cid c u hf hact hexp hcap halr hu hcap2
    rw [redeem_success_eq st now code uid cid c u hf hact hexp hcap halr hu]
    have hf2 : findPromoCode
        (⟨updateFn st.users uid
            ⟨u.points_balance + c.points_amount, u.dollar_balance⟩,
          st.notes,
          st.transactions ++
            [⟨uid, "promo_code_redemption", 0, c.points_amount, none⟩],
          st.purchases,
          incrementUses st.promo_codes cid,
          st.redemptions ++ [⟨cid, uid, c.points_amount⟩],
          st.donations⟩ : DBState) code =
        some (cid, { c with current_uses := c.current_uses + 1 }) := by
      show (incrementUses st.promo_codes cid).find?
        (fun e => e.2.code == code) = _
      unfold incrementUses
      rw [List.find?_map]
      have hpf : ((fun e : Nat × PromoCodeRow => e.2.code == code) ∘
          (fun e : Nat × PromoCodeRow => if e.1 = cid
            then (e.1, { e.2 with current_uses := e.2.current_uses + 1 })
            else e)) = fun e : Nat × PromoCodeRow => e.2.code == code := by
        funext e
        by_cases h : e.1 = cid <;> simp [h]
      rw [hpf]
      have hff : st.promo_codes.find? (fun e => e.2.code == code) =
          some (cid, c) := hf
      rw [hff]
      simp
    have hact2 : ({ c with current_uses := c.current_uses + 1 }
        : PromoCodeRow).is_active = true := hact
    have hexp2 : promoExpired
        { c with current_uses := c.current_uses + 1 } now = false := hexp
    have halr2 : alreadyRedeemed
        (⟨updateFn st.users uid
            ⟨u.points_balance + c.points_amount, u.dollar_balance⟩,
          st.notes,
          st.transactions ++
            [⟨uid, "promo_code_redemption", 0, c.points_amount, none⟩],
          st.purchases,
          incrementUses st.promo_codes cid,
          st.redemptions ++ [⟨cid, uid, c.points_amount⟩],
          st.donations⟩ : DBState) cid uid = true := by
      unfold alreadyRedeemed
      simp
    have hexp3 : promoExpired ⟨c.code, c.points_amount, c.expires_at, true,
        c.max_uses, c.current_uses + 1⟩ now = false := hexp
    have hcap3 : promoCapReached ⟨c.code, c.points_amount, c.expires_at, true,
        c.max_uses, c.current_uses + 1⟩ = false := hcap2
    simp [redeem_promo_code, hf2, hact2, hexp2, hcap2, halr2, hact, hexp,
      hcap, hexp3, hcap3]

/-- C5 counterexample to the claim as stated: `BETA50` has `max_uses = 1`;
user 1 redeems it successfully, and the second redemption by the same user
fails with the usage-cap message, not the already-redeemed message — the cap
check precedes the prior-redemption check. -/
theorem redeem_promo_code_double_cex :
    (redeem_promo_code exSt 0 "BETA50" 1).2.success = true ∧
    (redeem_promo_code (redeem_promo_code exSt 0 "BETA50" 1).1
        0 "BETA50" 1).2 =
      ⟨false, "This promo code has reached its maximum usage limit", 0⟩ ∧
    ("This promo code has reached its maximum usage limit" : String) ≠
      "You have already redeemed this promo code" := by
  refine ⟨by decide, by decide, by decide⟩

/-- C5 witness: user 3 redeems `WELCOME100` on the concrete example state:
success, 100 points received; and the double-redemption clause exercised on
`WELCOME100` (unlimited uses): the second attempt reports already-redeemed. -/
theorem redeem_promo_code_spec_witness :
    (redeem_promo_code exSt 0 "WELCOME100" 3).2 =
      ⟨true, "Promo code redeemed successfully!", 100⟩ ∧
    (redeem_promo_code (redeem_promo_code exSt 0 "WELCOME100" 3).1
        0 "WELCOME100" 3).2 =
      ⟨false, "You have already redeemed this promo code", 0⟩ := by
  have h6 := (redeem_promo_code_spec exSt 0 "WELCOME100" 3).2.2.2.2.2.1
    100 ⟨"WELCOME100", 100, none, true, none, 0⟩ ⟨0, 0⟩
    (by decide) (by decide) (by decide) (by decide) (by decide) (by decide)
  have h7 := (redeem_promo_code_spec exSt 0 "WELCOME100" 3).2.2.2.2.2.2.1
    100 ⟨"WELCOME100", 100, none, true, none, 0⟩ ⟨0, 0⟩
    (by decide) (by decide) (by decide) (by decide) (by decide) (by decide)
    (by decide)
  exact ⟨by rw [h6], by rw [h7]⟩

/-! ## C6 -/

theorem creditPoints_users_other (st : DBState) (uid : Nat) (pts : Int)
    (u : Nat) (h : u ≠ uid) :
    (creditPoints st uid pts).users u = st.users u := by
  unfold creditPoints
  cases st.users uid <;> simp [updateFn, h]

theorem creditPoints_users_same (st : DBState) (uid : Nat) (pts : Int)
    (r : UserRow) (h : st.users uid = some r) :
    (creditPoints st uid pts).users uid =
      some { r with points_balance := r.points_balance + pts } := by
  unfold creditPoints
  rw [h]
  simp

/-- C6: a donate request whose preconditions hold (preset amount, published
free note, donor ≠ owner, sufficient balance) deducts exactly `points` from
the donor, credits exactly `⌊points × (1 − 0.30)⌋` to the recipient, inserts
one donation record carrying both the gross and the net amount, and reports
`new_balance` = donor's old balance − `points`; an insufficient balance
aborts with no mutation. -/
theorem donate_success_effects (st : DBState) (donorId noteId : Nat)
    (points : Int) (msg : Option String) (note : NoteRow)
    (donor recip : UserRow)
    (hpts : ALLOWED_AMOUNTS.contains points = true)
    (hn : st.notes noteId = some note)
    (hpub : note.is_published = true)
    (hfree : note.price = 0)
    (howner : note.user_id ≠ donorId)
    (hd : st.users donorId = some donor)
    (hr : st.users note.user_id = some recip) :
    (donor.points_balance < points →
      donate st donorId noteId points msg =
        (st, .error .InsufficientPoints)) ∧
    (points ≤ donor.points_balance →
      donate st donorId noteId points msg =
        (⟨updateFn (updateFn st.users donorId
              ⟨donor.points_balance - points, donor.dollar_balance⟩)
            note.user_id
            ⟨recip.points_balance + ⌊(points : ℚ) * (1 - PLATFORM_FEE)⌋,
             recip.dollar_balance⟩,
          st.notes, st.transactions, st.purchases, st.promo_codes,
          st.redemptions,
          st.donations ++
            [⟨donorId, note.user_id, noteId, points,
              ⌊(points : ℚ) * (1 - PLATFORM_FEE)⌋,
              (match msg with
               | none => none
               | some m => if m.trim = "" then none else some m.trim)⟩]⟩,
         .ok ⟨points, ⌊(points : ℚ) * (1 - PLATFORM_FEE)⌋,
           donor.points_balance - points⟩)) := by
  have hmem : points ∈ ALLOWED_AMOUNTS := by simpa using hpts
  constructor
  · intro hlt
    simp [donate, hpts, hmem, hn, hpub, hfree, howner, hd, hlt]
  · intro hge
    have hnlt : ¬ (donor.points_balance < points) := not_lt.mpr hge
    have hcu : (creditPoints
        (⟨updateFn st.users donorId
            ⟨donor.points_balance - points, donor.dollar_balance⟩,
          st.notes, st.transactions, st.purchases, st.promo_codes,
          st.redemptions, st.donations⟩ : DBState) note.user_id
        ⌊(points : ℚ) * (1 - PLATFORM_FEE)⌋) =
        ⟨updateFn (updateFn st.users donorId
            ⟨donor.points_balance - points, donor.dollar_balance⟩)
          note.user_id
          ⟨recip.points_balance + ⌊(points : ℚ) * (1 - PLATFORM_FEE)⌋,
           recip.dollar_balance⟩,
         st.notes, st.transactions, st.purchases, st.promo_codes,
         st.redemptions, st.donations⟩ := by
      have hsc : (⟨updateFn st.users donorId
            ⟨donor.points_balance - points, donor.dollar_balance⟩,
          st.notes, st.transactions, st.purchases, st.promo_codes,
          st.redemptions, st.donations⟩ : DBState).users note.user_id =
          some recip := by
        show updateFn st.users donorId
          ⟨donor.points_balance - points, donor.dollar_balance⟩
          note.user_id = some recip
        rw [updateFn_other _ _ _ _ howner]
        exact hr
      unfold creditPoints
      rw [hsc]
    simp [donate, hpts, hmem, hn, hpub, hfree, howner, hd, hnlt, hcu]

/-- C6 witness: user 1 donates 100 points on the free note 12; the recipient
(user 2) is credited exactly `⌊100 × 0.7⌋ = 70` and the donor's new balance
is 400; with only 25 points user 3 cannot donate 100. -/
theorem donate_success_effects_witness :
    (donate exSt 1 12 100 none).2 = .ok ⟨100, 70, 400⟩ ∧
    (donate exSt 1 12 100 none).1.users 2 = some ⟨170, 5⟩ ∧
    donate exSt 3 12 100 none = (exSt, .error .InsufficientPoints) := by
  have h := donate_success_effects exSt 1 12 100 none ⟨2, 0, true, false, false⟩
    ⟨500, 0⟩ ⟨100, 5⟩ (by decide) (by decide) (by decide) (by decide)
    (by decide) (by decide) (by decide)
  have h' := donate_success_effects exSt 3 12 100 none ⟨2, 0, true, false, false⟩
    ⟨0, 0⟩ ⟨100, 5⟩ (by decide) (by decide) (by decide) (by decide)
    (by decide) (by decide) (by decide)
  have hs := h.2 (by decide)
  refine ⟨?_, ?_, h'.1 (by decide)⟩
  · rw [hs]
    have hfl : ⌊(100 : ℚ) * (1 - PLATFORM_FEE)⌋ = 70 := by
      norm_num [PLATFORM_FEE]
    simp [hfl]
  · rw [hs]
    have hfl : ⌊(100 : ℚ) * (1 - PLATFORM_FEE)⌋ = 70 := by
      norm_num [PLATFORM_FEE]
    simp [hfl, updateFn]

/-! ## C7 -/

/-- C9: before invoking the `purchase_note` transaction, the purchase
endpoint rejects two cases absent from the procedure's own failure set, each
as a 400 response with the state untouched: a published note priced at or
below zero (free notes cannot be purchased), and a note authored by the
buyer (no self-purchase) — the free-note check firing first. -/
theorem endpoint_free_and_self_checks (st : DBState) (userId noteId : Nat)
    (pm : String) (orgF : ℚ) (note : NoteRow)
    (hpm : pm = "points" ∨ pm = "dollars")
    (hn : st.notes noteId = some note)
    (hpub : note.is_published = true) :
    (note.price ≤ 0 →
      purchaseEndpoint st userId noteId pm orgF =
        (st, .error .FreeNote) ∧ statusOf .FreeNote = 400) ∧
    (0 < note.price → note.user_id = userId →
      purchaseEndpoint st userId noteId pm orgF =
        (st, .error .SelfPurchase) ∧ statusOf .SelfPurchase = 400) := by
  have hc : ¬¬(pm = "points" ∨ pm = "dollars") := not_not_intro hpm
  constructor
  · intro hle
    refine ⟨?_, by decide⟩
    simp [purchaseEndpoint, hc, hn, hpub, hle]
  · intro hpos hself
    have hnle : ¬ (note.price ≤ 0) := not_le.mpr hpos
    refine ⟨?_, by decide⟩
    simp [purchaseEndpoint, hc, hn, hpub, hnle, hself]

/-- C9 witness: on the concrete example state, buying the free note 12
returns the free-note 400 error, and user 2 buying their own note 10 returns
the self-purchase 400 error; in both cases the state is unchanged. -/
theorem endpoint_free_and_self_checks_witness :
    (purchaseEndpoint exSt 1 12 "points" 1 = (exSt, .error .FreeNote) ∧
      statusOf .FreeNote = 400) ∧
    (purchaseEndpoint exSt 2 10 "dollars" 1 = (exSt, .error .SelfPurchase) ∧
      statusOf .SelfPurchase = 400) :=
  ⟨(endpoint_free_and_self_checks exSt 1 12 "points" 1
      ⟨2, 0, true, false, false⟩ (Or.inl rfl) (by decide) (by decide)).1
    (by norm_num),
   (endpoint_free_and_self_checks exSt 2 10 "dollars" 1
      ⟨2, 10, true, false, false⟩ (Or.inr rfl) (by decide) (by decide)).2
    (by norm_num) (by decide)⟩

/-! ## C10 -/

theorem uint32_le_iff_toNat_le (a b : UInt32) : a ≤ b ↔ a.toNat ≤ b.toNat := by
  rw [UInt32.le_def, BitVec.le_def]
  exact Iff.rfl

theorem char_toNat_ofNat {n : Nat} (hv : n.isValidChar) :
    (Char.ofNat n).toNat = n := by
  rw [Char.ofNat, dif_pos hv]
  rfl

theorem isLower_iff (c : Char) :
    c.isLower = true ↔ 97 ≤ c.toNat ∧ c.toNat ≤ 122 := by
  simp [Char.isLower, GE.ge, uint32_le_iff_toNat_le, Char.toNat]
  norm_num [UInt32.size]

/-- ASCII uppercasing never produces a lowercase letter. -/
theorem isLower_toUpper (c : Char) : (Char.toUpper c).isLower = false := by
  unfold Char.toUpper
  by_cases h : c.toNat ≥ 97 ∧ c.toNat ≤ 122
  · rw [if_pos h]
    have hv : (c.toNat - 32).isValidChar := Or.inl (by omega)
    cases hl : (Char.ofNat (c.toNat - 32)).isLower
    · rfl
    · exfalso
      have h2 := (isLower_iff _).mp hl
      rw [char_toNat_ofNat hv] at h2
      omega
  · rw [if_neg h]
    cases hl : c.isLower
    · rfl
    · exact absurd ((isLower_iff c).mp hl) h

theorem char_eq_iff_toNat (c d : Char) : c = d ↔ c.toNat = d.toNat := by
  constructor
  · intro h
    rw [h]
  · intro h
    cases c with
    | mk cv hcv =>
      cases d with
      | mk dv hdv =>
        have : cv = dv := by
          apply UInt32.ext
          exact h
        subst this
        rfl

theorem isWhitespace_iff (c : Char) :
    c.isWhitespace = true ↔
      c.toNat = 32 ∨ c.toNat = 9 ∨ c.toNat = 13 ∨ c.toNat = 10 := by
  simp [Char.isWhitespace, char_eq_iff_toNat]
  tauto

/-- ASCII uppercasing preserves whitespace-ness (it only moves letters). -/
theorem isWhitespace_toUpper (c : Char) :
    (Char.toUpper c).isWhitespace = c.isWhitespace := by
  unfold Char.toUpper
  by_cases h : c.toNat ≥ 97 ∧ c.toNat ≤ 122
  · rw [if_pos h]
    have hv : (c.toNat - 32).isValidChar := Or.inl (by omega)
    cases h1 : (Char.ofNat (c.toNat - 32)).isWhitespace <;>
      cases h2 : c.isWhitespace
    · rfl
    · exfalso
      have := (isWhitespace_iff c).mp h2
      omega
    · exfalso
      have h3 := (isWhitespace_iff _).mp h1
      rw [char_toNat_ofNat hv] at h3
      omega
    · rfl
  · rw [if_neg h]

/-- Trimming commutes with uppercasing. -/
theorem jsTrim_map_toUpper (l : List Char) :
    (jsTrim l).map Char.toUpper = jsTrim (l.map Char.toUpper) := by
  have hws : (Char.isWhitespace ∘ Char.toUpper) = Char.isWhitespace := by
    funext c
    exact isWhitespace_toUpper c
  unfold jsTrim
  rw [List.dropWhile_map Char.toUpper Char.isWhitespace l, hws,
    ← List.map_reverse,
    List.dropWhile_map Char.toUpper Char.isWhitespace, hws,
    ← List.map_reverse]

/-- The endpoint's lookup can only ever match a stored code with no
lowercase letter: the submitted code is trimmed and uppercased first. -/
theorem findPromoCode_normalize_noLower (st : DBState) (s : String)
    (e : Nat × PromoCodeRow)
    (hf : findPromoCode st (normalizeCode s) = some e) :
    ∀ ch ∈ e.2.code.data, ch.isLower = false := by
  intro ch hch
  have hp := List.find?_some hf
  have hcode : e.2.code = normalizeCode s := beq_iff_eq.mp hp
  rw [hcode] at hch
  simp only [normalizeCode] at hch
  obtain ⟨x, -, rfl⟩ := List.mem_map.mp hch
  exact isLower_toUpper x

/-- C10: the promo endpoint submits `code.trim().toUpperCase()` to
`redeem_promo_code`, so (1) the lookup only ever matches stored codes free
of lowercase letters — a stored code containing a lowercase letter can never
be redeemed through the endpoint; (2) any redemption row the call inserts
belongs to such a code; (3) for a stored code that is its own uppercase
image and carries no surrounding whitespace, normalizing any casing of it
yields the stored code exactly, so (4) submitting any casing of it behaves
identically to submitting the stored code itself. -/
theorem promo_code_normalization :
    (∀ (st : DBState) (s : String) (e : Nat × PromoCodeRow),
      findPromoCode st (normalizeCode s) = some e →
      ∀ ch ∈ e.2.code.data, ch.isLower = false) ∧
    (∀ (st : DBState) (now : Int) (uid : Nat) (s : String),
      ((redeem_promo_code st now (normalizeCode s) uid).1).redemptions =
        st.redemptions ∨
      ∃ cid c, findPromoCode st (normalizeCode s) = some (cid, c) ∧
        (∀ ch ∈ c.code.data, ch.isLower = false) ∧
        ((redeem_promo_code st now (normalizeCode s) uid).1).redemptions =
          st.redemptions ++ [⟨cid, uid, c.points_amount⟩]) ∧
    (∀ (stored w : String), w.data.map Char.toUpper = stored.data →
      jsTrim stored.data = stored.data →
      normalizeCode w = stored) ∧
    (∀ (st : DBState) (now : Int) (uid : Nat) (stored w : String),
      w.data.map Char.toUpper = stored.data →
      jsTrim stored.data = stored.data → w ≠ "" →
      redeemEndpoint st now uid w = redeem_promo_code st now stored uid) := by
  have hnorm : ∀ (stored w : String), w.data.map Char.toUpper = stored.data →
      jsTrim stored.data = stored.data → normalizeCode w = stored := by
    intro stored w hcase htrim
    have : (jsTrim w.data).map Char.toUpper = stored.data := by
      rw [jsTrim_map_toUpper, hcase, htrim]
    unfold normalizeCode
    rw [this]
  refine ⟨findPromoCode_normalize_noLower, ?_, hnorm, ?_⟩
  · intro st now uid s
    unfold redeem_promo_code
    split
    · exact Or.inl rfl
    next cid c hf =>
      split
      · exact Or.inl rfl
      split
      · exact Or.inl rfl
      split
      · exact Or.inl rfl
      split
      · exact Or.inl rfl
      refine Or.inr ⟨cid, c, hf,
        findPromoCode_normalize_noLower st s (cid, c) hf, ?_⟩
      simp only [creditPoints_redemptions]
  · intro st now uid stored w hcase htrim hne
    unfold redeemEndpoint
    rw [if_neg hne, hnorm stored w hcase htrim]

/-- C10 witness: the lowercase input `welcome100` normalizes to the stored
code `WELCOME100` and redeeming through the endpoint behaves exactly like
submitting the stored code; the stored code `secret10` (which contains
lowercase letters) is never matched by the endpoint's lookup, whatever the
input — here checked for the verbatim input `secret10`. -/
theorem promo_code_normalization_witness :
    normalizeCode "welcome100" = "WELCOME100" ∧
    redeemEndpoint exSt 0 3 "welcome100" =
      redeem_promo_code exSt 0 "WELCOME100" 3 ∧
    (∀ e, findPromoCode exSt (normalizeCode "secret10") = some e →
      ∀ ch ∈ e.2.code.data, ch.isLower = false) := by
  refine ⟨promo_code_normalization.2.2.1 "WELCOME100" "welcome100"
      (by decide) (by decide),
    promo_code_normalization.2.2.2 exSt 0 3 "WELCOME100" "welcome100"
      (by decide) (by decide) (by decide),
    fun e hf => promo_code_normalization.1 exSt "secret10" e hf⟩

end Veltri
